import Mathlib

/-!
The Basinhopping orchestrator of pallas-solver.

A shallow embedding of `src/src/pallas/basinhopping.cc`, and of the bounded objective
wrapper declared in `src/include/pallas/penalty_constrained_function.h`.

Modelling conventions.

* `double` values are modelled by `Int`: the orchestrator only copies, compares, negates,
  subtracts and squares them. Rounding and infinities are outside the model.
* NaN costs are covered by the namespace `ieee`, which repeats the orchestrator with costs
  of type `Double` (an exact value or NaN) and carries the claims whose truth depends on how
  a comparison with NaN turns out.
* The counters `num_iterations`, `num_stagnant_iterations`, `max_iterations` and
  `max_stagnant_iterations` are `Nat`. A counter is only incremented after a termination
  check found it strictly below its bound, so unsigned wrap-around cannot occur.
* Wall-clock timing buckets, logging and `line_search_direction_type` are left out: no
  control flow depends on them.
* The collaborators (objective, local minimizer, step strategy, acceptance test) are
  arbitrary functions. Each takes the number of earlier calls to it in the run as its first
  argument, so that stateful or randomised collaborators are covered.
* `Calls` is instrumentation: it counts the calls made to each collaborator, the executed
  main-loop iterations and the writes to the caller's buffer.
* The `while (true)` loop is run with explicit fuel; `Solve` returns `none` only when the
  fuel runs out.
-/

namespace pallas

/-- A `double` of the source. -/
abbrev Scalar := Int

/-- An `Eigen::VectorXd` of the source. -/
abbrev Vector := List Scalar

/-- The `ceres::TerminationType` enumeration. -/
inductive TerminationType where
  | CONVERGENCE
  | NO_CONVERGENCE
  | FAILURE
  | USER_SUCCESS
  | USER_FAILURE
deriving DecidableEq, Repr

/-- Modelled from the spec: the fields of `internal::State`, whose declaration is not among
the sources ("`{ x, cost, gradient, gradient_squared_norm, gradient_max_norm }`"). -/
structure State where
  x : Vector
  cost : Scalar
  gradient : Vector
  gradient_squared_norm : Scalar
  gradient_max_norm : Scalar
deriving DecidableEq, Repr

/-- Modelled from the spec: `State::update`, not among the sources. "If `other.cost <
self.cost`, overwrite self with `other` and report replaced; otherwise report not replaced."
The result is the new value of `self` and the report. -/
def State.update (self other : State) : State × Bool :=
  if other.cost < self.cost then (other, true) else (self, false)

/-- The `GradientProblem` interface used by the orchestrator. `Evaluate k x cost gradient` is
the `k`-th call `problem.Evaluate(x, &cost, gradient)`: it receives the current contents of
the two output locations and returns the success flag with their new contents (a failing
call may or may not have written to them). `Plus x delta` is `problem.Plus`, `none` when it
reports failure. -/
structure GradientProblem where
  NumParameters : Nat
  Evaluate : Nat → Vector → Scalar → Vector → Bool × Scalar × Vector
  Plus : Vector → Vector → Option Vector

/-- The part of `GradientLocalMinimizer::Summary` the orchestrator reads. -/
structure LocalSummary where
  termination_type : TerminationType
  message : String
deriving DecidableEq, Repr

/-- The fields of `Basinhopping::Options` that influence control flow. `step_function k x` is
the `k`-th call `options.step_function->Step(x, n)` and returns the buffer it leaves. -/
structure Options where
  step_function : Nat → Vector → Vector
  minimum_cost : Scalar
  max_iterations : Nat
  max_stagnant_iterations : Nat

/-- Collaborators of `Solve` whose code is outside the orchestrator:
`local_minimizer k x` is the `k`-th call `local_minimizer.Solve(options, problem, x, &s)` and
returns the buffer it leaves together with its summary; `metropolis k candidate current` is
the `k`-th acceptance decision; `newState n` is the value built by `internal::State(n)`. -/
structure Collaborators where
  local_minimizer : Nat → Vector → Vector × LocalSummary
  metropolis : Nat → Scalar → Scalar → Bool
  newState : Nat → State

/-- The `Basinhopping::Summary` record (timing buckets left out). -/
structure Summary where
  termination_type : TerminationType
  message : String
  initial_cost : Scalar
  final_cost : Scalar
  num_parameters : Nat
  num_iterations : Nat
  local_minimization_summary : LocalSummary
deriving DecidableEq, Repr

/-- The member variables of a `Basinhopping` object. -/
structure Basinhopping where
  current_state : State
  candidate_state : State
  global_minimum_state : State
  num_iterations : Nat
  num_stagnant_iterations : Nat
deriving DecidableEq, Repr

/-- Instrumentation: how often each collaborator was called, how many main-loop bodies were
executed and how often the caller's buffer was written. -/
structure Calls where
  evaluations : Nat
  local_minimizations : Nat
  steps : Nat
  acceptance_tests : Nat
  loop_iterations : Nat
  buffer_writes : Nat
deriving DecidableEq, Repr

/-- Everything `Solve` reads and writes: the orchestrator object, the caller's summary, the
caller's parameter buffer (the view `x`), the local flag `new_global_min`, and the call
counts. -/
structure Run where
  self : Basinhopping
  summary : Summary
  parameters : Vector
  new_global_min : Bool
  calls : Calls
deriving DecidableEq, Repr

/-- `Eigen`'s `squaredNorm`. -/
def squaredNorm (v : Vector) : Scalar :=
  (v.map (fun a => a * a)).sum

/-- Absolute value of a scalar. -/
def absScalar (a : Scalar) : Scalar :=
  if a < 0 then -a else a

/-- `Eigen`'s `lpNorm<Eigen::Infinity>`: the largest absolute entry (0 for the empty
vector). -/
def lpNormInfinity (v : Vector) : Scalar :=
  v.foldl (fun m a => max m (absScalar a)) 0

/-- The elementwise difference `x - p` of two vectors. -/
def vsub (x p : Vector) : Vector :=
  List.zipWith (fun a b => a - b) x p

/-- The file-local helper `Evaluate(problem, x, state, message)` (lines 46-69); `k` is the
number of earlier calls to `problem.Evaluate`. Returns the success flag, the state and the
message. -/
def Evaluate (problem : GradientProblem) (k : Nat) (x : Vector) (state : State)
    (message : String) : Bool × State × String :=
  match problem.Evaluate k x state.cost state.gradient with
  | (false, c, g) =>
      (false, { state with cost := c, gradient := g }, "Gradient evaluation failed.")
  | (true, c, g) =>
      let negative_gradient : Vector := g.map (fun a => -a)
      match problem.Plus x negative_gradient with
      | none =>
          (false, { state with cost := c, gradient := g },
            "projected_gradient_step = Plus(x, -gradient) failed.")
      | some projected_gradient_step =>
          (true,
            { state with
                cost := c
                gradient := g
                gradient_squared_norm := squaredNorm (vsub x projected_gradient_step)
                gradient_max_norm := lpNormInfinity (vsub x projected_gradient_step) },
            message)

/-- Modelled from the spec: `internal::IsSolutionUsable`, not among the sources. The result
is usable "iff termination kind is not `FAILURE`/`USER_FAILURE`". -/
def IsSolutionUsable (summary : Summary) : Bool :=
  summary.termination_type != TerminationType.FAILURE &&
    summary.termination_type != TerminationType.USER_FAILURE

/-- `Basinhopping::check_for_termination_` (lines 275-293): the returned flag with the
message and the termination type it leaves. -/
def check_for_termination_ (self : Basinhopping) (options : Options) (message : String)
    (termination_type : TerminationType) : Bool × String × TerminationType :=
  if self.global_minimum_state.cost < options.minimum_cost then
    (true, "Prescribed minimum cost reached.", TerminationType.USER_SUCCESS)
  else if self.num_iterations ≥ options.max_iterations then
    (true, "Maximum number of iterations reached.", TerminationType.NO_CONVERGENCE)
  else if self.num_stagnant_iterations ≥ options.max_stagnant_iterations then
    (true, "Maximum number of stagnant iterations reached.", TerminationType.CONVERGENCE)
  else
    (false, message, termination_type)

/-- `Basinhopping::prepare_final_summary_` (lines 295-300). -/
def prepare_final_summary_ (self : Basinhopping) (global_summary : Summary)
    (local_summary : LocalSummary) : Summary :=
  { global_summary with
      final_cost := self.global_minimum_state.cost
      num_iterations := self.num_iterations
      local_minimization_summary := local_summary }

/-- The termination check as `Solve` uses it at lines 217-222 and 263-270: when
`check_for_termination_` fires, the summary is finalised and the global best is copied to
the caller's buffer if the solution is usable. The flag tells whether `Solve` returns. -/
def finish (options : Options) (local_summary : LocalSummary) (r : Run) : Run × Bool :=
  match check_for_termination_ r.self options r.summary.message r.summary.termination_type with
  | (true, message, termination_type) =>
      let s1 : Summary := { r.summary with message := message, termination_type := termination_type }
      let s2 := prepare_final_summary_ r.self s1 local_summary
      if IsSolutionUsable s2 then
        ({ r with
            summary := s2
            parameters := r.self.global_minimum_state.x
            calls := { r.calls with buffer_writes := r.calls.buffer_writes + 1 } }, true)
      else
        ({ r with summary := s2 }, true)
  | (false, message, termination_type) =>
      ({ r with
          summary := { r.summary with message := message, termination_type := termination_type } },
        false)

/-- The body of the `while (true)` loop up to the termination check (lines 226-261): the
run after `++num_iterations`, and the `local_summary` of this iteration. -/
def loopBody (c : Collaborators) (options : Options) (problem : GradientProblem)
    (r : Run) : Run × LocalSummary :=
  -- options.step_function->Step(candidate_state.x.data(), num_parameters)
  let x1 := options.step_function r.calls.steps r.self.candidate_state.x
  -- local_minimizer.Solve(..., candidate_state.x.data(), &local_summary)
  let lm := c.local_minimizer r.calls.local_minimizations x1
  let cand0 : State := { r.self.candidate_state with x := lm.1 }
  -- Evaluate(problem, candidate_state.x, &candidate_state, &global_summary->message)
  let ev := Evaluate problem r.calls.evaluations cand0.x cand0 r.summary.message
  let candidate_state := ev.2.1
  let summary1 : Summary :=
    if ev.1 then { r.summary with message := ev.2.2 }
    else
      { r.summary with
          termination_type := TerminationType.FAILURE
          message := "Cost and jacobian evaluation failed. " ++ "More details: " ++ ev.2.2 }
  -- accept = metropolis(candidate_state.cost, current_state.cost)
  let accept := c.metropolis r.calls.acceptance_tests candidate_state.cost r.self.current_state.cost
  -- if (accept) { current_state = candidate_state;
  --               new_global_min = global_minimum_state.update(current_state); }
  let current_state := if accept then candidate_state else r.self.current_state
  let upd : State × Bool :=
    if accept then r.self.global_minimum_state.update current_state
    else (r.self.global_minimum_state, r.new_global_min)
  let new_global_min := upd.2
  -- if (new_global_min) num_stagnant_iterations = 0; else ++num_stagnant_iterations;
  let num_stagnant_iterations :=
    if new_global_min then 0 else r.self.num_stagnant_iterations + 1
  let self1 : Basinhopping :=
    { current_state := current_state
      candidate_state := candidate_state
      global_minimum_state := upd.1
      num_iterations := r.self.num_iterations + 1
      num_stagnant_iterations := num_stagnant_iterations }
  let calls1 : Calls :=
    { r.calls with
        steps := r.calls.steps + 1
        local_minimizations := r.calls.local_minimizations + 1
        evaluations := r.calls.evaluations + 1
        acceptance_tests := r.calls.acceptance_tests + 1
        loop_iterations := r.calls.loop_iterations + 1 }
  ({ r with self := self1, summary := summary1, new_global_min := new_global_min, calls := calls1 },
    lm.2)

/-- One execution of the body of the `while (true)` loop (lines 226-270). The flag tells
whether the body returned from `Solve`. -/
def iteration (c : Collaborators) (options : Options) (problem : GradientProblem)
    (r : Run) : Run × Bool :=
  finish options (loopBody c options problem r).2 (loopBody c options problem r).1

/-- The `while (true)` loop (lines 225-271), with fuel. -/
def mainLoop (c : Collaborators) (options : Options) (problem : GradientProblem) :
    Nat → Run → Option Run
  | 0, _ => none
  | fuel + 1, r =>
      match iteration c options problem r with
      | (r1, true) => some r1
      | (r1, false) => mainLoop c options problem fuel r1

/-- The call counts at the start of a run. -/
def Calls.zero : Calls :=
  { evaluations := 0, local_minimizations := 0, steps := 0, acceptance_tests := 0,
    loop_iterations := 0, buffer_writes := 0 }

/-- `Basinhopping::Solve` (lines 142-273). `self` is the orchestrator object as the call
finds it, `global_summary` the caller's summary as passed in, `parameters` the caller's
buffer. -/
def Solve (c : Collaborators) (fuel : Nat) (self : Basinhopping) (options : Options)
    (problem : GradientProblem) (parameters : Vector) (global_summary : Summary) :
    Option Run :=
  -- num_iterations = 0; num_stagnant_iterations = 0;
  let num_parameters := problem.NumParameters
  let summary0 : Summary := { global_summary with num_parameters := num_parameters }
  -- current_state = internal::State(num_parameters); current_state.x = x;
  let cur0 : State := { c.newState num_parameters with x := parameters }
  -- evaluate problem with initial parameters
  let ev0 := Evaluate problem 0 cur0.x cur0 summary0.message
  let cur1 := ev0.2.1
  let summary1 : Summary :=
    if ev0.1 then { summary0 with message := ev0.2.2 }
    else
      { summary0 with
          termination_type := TerminationType.FAILURE
          message := "Initial cost and jacobian evaluation failed. " ++ "More details: " ++ ev0.2.2 }
  let summary2 : Summary := { summary1 with initial_cost := cur1.cost }
  -- minimize problem with initial parameters
  let lm := c.local_minimizer 0 cur1.x
  let local_summary := lm.2
  let cur2 : State := { cur1 with x := lm.1 }
  if local_summary.termination_type ≠ TerminationType.FAILURE ∧
      local_summary.termination_type ≠ TerminationType.USER_FAILURE then
    let ev1 := Evaluate problem 1 cur2.x cur2 summary2.message
    let cur3 := ev1.2.1
    let r0 : Run :=
      if ev1.1 then
        { self :=
            { current_state := cur3
              candidate_state := cur3
              global_minimum_state := cur3
              num_iterations := 1
              num_stagnant_iterations := 0 }
          summary := { summary2 with message := ev1.2.2 }
          parameters := parameters
          new_global_min := false
          calls := { Calls.zero with evaluations := 2, local_minimizations := 1 } }
      else
        { self :=
            { self with
                current_state := cur3
                num_iterations := 0
                num_stagnant_iterations := 0 }
          summary :=
            { summary2 with
                termination_type := TerminationType.FAILURE
                message :=
                  "Initial cost and jacobian evaluation failed. " ++ "More details: " ++ ev1.2.2 }
          parameters := parameters
          new_global_min := false
          calls := { Calls.zero with evaluations := 2, local_minimizations := 1 } }
    -- check that initial minimization didn't satisfy termination conditions
    match finish options local_summary r0 with
    | (r1, true) => some r1
    | (r1, false) => mainLoop c options problem fuel r1
  else
    let self1 : Basinhopping :=
      { self with current_state := cur2, num_iterations := 0, num_stagnant_iterations := 0 }
    let summary3 : Summary :=
      { summary2 with
          termination_type := TerminationType.FAILURE
          message := "Initial local minimization iteration failed." ++ "More details: " ++
            local_summary.message }
    some
      { self := self1
        summary := prepare_final_summary_ self1 summary3 local_summary
        parameters := parameters
        new_global_min := false
        calls := { Calls.zero with evaluations := 1, local_minimizations := 1 } }

/-! ## The bounded objective wrapper -/

/-- The data members of `PenaltyConstrainedFunction` (penalty_constrained_function.h, lines
51-55). `cost_function_ x` is the inner objective's `Evaluate` at `x`: the cost and the
gradient, or `none` when it reports failure. -/
structure PenaltyConstrainedFunction where
  cost_function_ : Vector → Option (Scalar × Vector)
  upper_bounds_ : Vector
  lower_bounds_ : Vector
  num_parameters_ : Nat
  tolerance_ : Scalar

/-- Modelled from the spec: the treatment of one coordinate in step 1 of
`PenaltyConstrainedFunction::Evaluate`, whose body is not among the sources. "Clamp each
`x[i]` into `[lower_bounds[i], upper_bounds[i]]` (values within `tolerance` of a bound are
snapped to the bound)", a point outside being clamped "to the nearest boundary". The value
is first clamped into the interval; a clamped value within `tolerance` of a bound is then
moved onto that bound, onto the nearer one when it is within `tolerance` of both. -/
def clampCoordinate (tolerance lower upper v : Scalar) : Scalar :=
  let w := if v < lower then lower else if upper < v then upper else v
  if w - lower ≤ tolerance ∧ w - lower ≤ upper - w then lower
  else if upper - w ≤ tolerance then upper
  else w

/-- Modelled from the spec: step 1 of `PenaltyConstrainedFunction::Evaluate` on the whole
parameter buffer, coordinate by coordinate. -/
def clampParameters (tolerance : Scalar) : Vector → Vector → Vector → Vector
  | lower :: ls, upper :: us, v :: vs =>
      clampCoordinate tolerance lower upper v :: clampParameters tolerance ls us vs
  | _, _, _ => []

/-- Modelled from the spec: the treatment of one gradient component in step 3 of
`PenaltyConstrainedFunction::Evaluate`. "For each coordinate currently at (or within
`tolerance` of) a bound, zero the gradient component if its sign would push the parameter
further outside that bound": a descent step moves against the gradient, so a positive
component is zeroed at the lower bound and a negative one at the upper bound. -/
def projectCoordinate (tolerance lower upper v g : Scalar) : Scalar :=
  if v - lower ≤ tolerance ∧ 0 < g then 0
  else if upper - v ≤ tolerance ∧ g < 0 then 0
  else g

/-- Modelled from the spec: step 3 of `PenaltyConstrainedFunction::Evaluate` on the whole
gradient. -/
def projectGradient (tolerance : Scalar) : Vector → Vector → Vector → Vector → Vector
  | lower :: ls, upper :: us, v :: vs, g :: gs =>
      projectCoordinate tolerance lower upper v g :: projectGradient tolerance ls us vs gs
  | _, _, _, _ => []

/-- Modelled from the spec: `PenaltyConstrainedFunction::Evaluate` (declared at lines 42-44 of
the header, body not among the sources), with the gradient requested. Clamp the buffer in
place, evaluate the inner objective at the clamped point, project the gradient; fail iff the
inner objective fails. Returns the buffer as the call leaves it and the cost and gradient,
or `none` on failure. -/
def PenaltyConstrainedFunction.Evaluate (f : PenaltyConstrainedFunction)
    (parameters : Vector) : Vector × Option (Scalar × Vector) :=
  let clamped := clampParameters f.tolerance_ f.lower_bounds_ f.upper_bounds_ parameters
  match f.cost_function_ clamped with
  | none => (clamped, none)
  | some (cost, gradient) =>
      (clamped,
        some (cost,
          projectGradient f.tolerance_ f.lower_bounds_ f.upper_bounds_ clamped gradient))

/-- Modelled from the spec: `PenaltyConstrainedFunction::NumParameters` "delegates to the
inner objective", whose dimension the wrapper keeps in `num_parameters_`. -/
def PenaltyConstrainedFunction.NumParameters (f : PenaltyConstrainedFunction) : Nat :=
  f.num_parameters_

/-- The termination kind `check_for_termination_` writes when it fires. -/
def firedKind (self : Basinhopping) (options : Options) : TerminationType :=
  if self.global_minimum_state.cost < options.minimum_cost then TerminationType.USER_SUCCESS
  else if self.num_iterations ≥ options.max_iterations then TerminationType.NO_CONVERGENCE
  else TerminationType.CONVERGENCE

/-- The point the initial local minimization leaves and its summary (lines 179-184). The
local minimizer is handed `current_state.x`, which holds a copy of the caller's buffer. -/
def initialMinimization (c : Collaborators) (parameters : Vector) : Vector × LocalSummary :=
  c.local_minimizer 0 parameters

/-- Whether the initial local minimization reported `FAILURE` or `USER_FAILURE`. -/
def initialMinimizationFailed (c : Collaborators) (parameters : Vector) : Prop :=
  (initialMinimization c parameters).2.termination_type = TerminationType.FAILURE ∨
    (initialMinimization c parameters).2.termination_type = TerminationType.USER_FAILURE

instance (c : Collaborators) (parameters : Vector) :
    Decidable (initialMinimizationFailed c parameters) := by
  unfold initialMinimizationFailed
  infer_instance

/-- The first evaluation of `Solve` (line 168), at the caller's point. -/
def firstEvaluation (c : Collaborators) (problem : GradientProblem) (parameters : Vector)
    (global_summary : Summary) : Bool × State × String :=
  Evaluate problem 0 parameters { c.newState problem.NumParameters with x := parameters }
    global_summary.message

/-- The second evaluation of `Solve` (line 194), at the locally minimised start point. -/
def secondEvaluation (c : Collaborators) (problem : GradientProblem) (parameters : Vector)
    (global_summary : Summary) : Bool × State × String :=
  Evaluate problem 1 (initialMinimization c parameters).1
    { (firstEvaluation c problem parameters global_summary).2.1 with
        x := (initialMinimization c parameters).1 }
    (if (firstEvaluation c problem parameters global_summary).1 then
        (firstEvaluation c problem parameters global_summary).2.2
      else
        "Initial cost and jacobian evaluation failed. " ++ "More details: " ++
          (firstEvaluation c problem parameters global_summary).2.2)

/-- The summary after the first evaluation and the assignment of `initial_cost`
(lines 162-175). -/
def initialSummary (c : Collaborators) (problem : GradientProblem) (parameters : Vector)
    (global_summary : Summary) : Summary :=
  if (firstEvaluation c problem parameters global_summary).1 then
    { global_summary with
        num_parameters := problem.NumParameters
        message := (firstEvaluation c problem parameters global_summary).2.2
        initial_cost := (firstEvaluation c problem parameters global_summary).2.1.cost }
  else
    { global_summary with
        num_parameters := problem.NumParameters
        termination_type := TerminationType.FAILURE
        message := "Initial cost and jacobian evaluation failed. " ++ "More details: " ++
          (firstEvaluation c problem parameters global_summary).2.2
        initial_cost := (firstEvaluation c problem parameters global_summary).2.1.cost }

/-- The run as it stands at line 215, before the first termination check, when the initial
local minimization did not fail. -/
def initialRun (c : Collaborators) (self : Basinhopping) (problem : GradientProblem)
    (parameters : Vector) (global_summary : Summary) : Run :=
  if (secondEvaluation c problem parameters global_summary).1 then
    { self :=
        { current_state := (secondEvaluation c problem parameters global_summary).2.1
          candidate_state := (secondEvaluation c problem parameters global_summary).2.1
          global_minimum_state := (secondEvaluation c problem parameters global_summary).2.1
          num_iterations := 1
          num_stagnant_iterations := 0 }
      summary :=
        { initialSummary c problem parameters global_summary with
            message := (secondEvaluation c problem parameters global_summary).2.2 }
      parameters := parameters
      new_global_min := false
      calls := { Calls.zero with evaluations := 2, local_minimizations := 1 } }
  else
    { self :=
        { self with
            current_state := (secondEvaluation c problem parameters global_summary).2.1
            num_iterations := 0
            num_stagnant_iterations := 0 }
      summary :=
        { initialSummary c problem parameters global_summary with
            termination_type := TerminationType.FAILURE
            message := "Initial cost and jacobian evaluation failed. " ++ "More details: " ++
              (secondEvaluation c problem parameters global_summary).2.2 }
      parameters := parameters
      new_global_min := false
      calls := { Calls.zero with evaluations := 2, local_minimizations := 1 } }

/-- The run `Solve` returns at line 212, when the initial local minimization failed. -/
def failedRun (c : Collaborators) (self : Basinhopping) (problem : GradientProblem)
    (parameters : Vector) (global_summary : Summary) : Run :=
  { self :=
      { self with
          current_state :=
            { (firstEvaluation c problem parameters global_summary).2.1 with
                x := (initialMinimization c parameters).1 }
          num_iterations := 0
          num_stagnant_iterations := 0 }
    summary :=
      { initialSummary c problem parameters global_summary with
          termination_type := TerminationType.FAILURE
          message := "Initial local minimization iteration failed." ++ "More details: " ++
            (initialMinimization c parameters).2.message
          final_cost := self.global_minimum_state.cost
          num_iterations := 0
          local_minimization_summary := (initialMinimization c parameters).2 }
    parameters := parameters
    new_global_min := false
    calls := { Calls.zero with evaluations := 1, local_minimizations := 1 } }

/-- The run observed after `k` executions of the loop body (with its termination check),
started from `r`. -/
def stateAfter (c : Collaborators) (options : Options) (problem : GradientProblem) :
    Nat → Run → Run
  | 0, r => r
  | k + 1, r => (iteration c options problem (stateAfter c options problem k r)).1

/-- Modelled from the spec: the acceptance test `Basinhopping::metropolis`, which is not
among the sources. "Accept unconditionally if `candidate_state.cost <= current_state.cost`;
otherwise accept with probability `exp(-(candidate_state.cost - current_state.cost) / T)`."
`draw k candidate current` is the outcome of the `k`-th random comparison against that
probability, for an arbitrary source of randomness. -/
def metropolis (draw : Nat → Scalar → Scalar → Bool) (k : Nat)
    (candidate_cost current_cost : Scalar) : Bool :=
  if candidate_cost ≤ current_cost then true else draw k candidate_cost current_cost

/-- The collaborators `c` with the acceptance test replaced by the spec's Metropolis test
over the random source `draw`. -/
def withMetropolis (c : Collaborators) (draw : Nat → Scalar → Scalar → Bool) :
    Collaborators :=
  { c with metropolis := metropolis draw }

/-- The cost of `candidate_state` after the evaluation of the loop body started from `r`
(line 239), the first argument of the acceptance test. -/
def candidateCost (c : Collaborators) (options : Options) (problem : GradientProblem)
    (r : Run) : Scalar :=
  (loopBody c options problem r).1.self.candidate_state.cost

/-- The value of `accept` in the loop body started from `r` (line 247). -/
def accepted (c : Collaborators) (options : Options) (problem : GradientProblem)
    (r : Run) : Bool :=
  c.metropolis r.calls.acceptance_tests (candidateCost c options problem r)
    r.self.current_state.cost

/-- Whether the loop body started from `r` replaces the global best: the candidate is
accepted and `global_minimum_state.update` reports a replacement (lines 249-253). -/
def replaced (c : Collaborators) (options : Options) (problem : GradientProblem)
    (r : Run) : Bool :=
  accepted c options problem r &&
    decide (candidateCost c options problem r < r.self.global_minimum_state.cost)

/-- Whether `check_for_termination_` fires on the orchestrator object `b`. -/
def fires (options : Options) (b : Basinhopping) : Bool :=
  decide (b.global_minimum_state.cost < options.minimum_cost ∨
    b.num_iterations ≥ options.max_iterations ∨
    b.num_stagnant_iterations ≥ options.max_stagnant_iterations)

/-- The evaluation of the candidate in the loop body started from `r` (line 239): the
helper's success flag, the candidate state it leaves and the message. -/
def loopEvaluation (c : Collaborators) (options : Options) (problem : GradientProblem)
    (r : Run) : Bool × State × String :=
  Evaluate problem r.calls.evaluations
    (c.local_minimizer r.calls.local_minimizations
      (options.step_function r.calls.steps r.self.candidate_state.x)).1
    { r.self.candidate_state with
        x := (c.local_minimizer r.calls.local_minimizations
          (options.step_function r.calls.steps r.self.candidate_state.x)).1 }
    r.summary.message

/-- The run `q` is the one `Solve` returns when, started from the run `r0` that reaches the
first termination check, the check fires for the first time after `K` loop iterations. -/
structure ReturnsAfter (c : Collaborators) (options : Options) (problem : GradientProblem)
    (r0 : Run) (K : Nat) (q : Run) : Prop where
  quiet : ∀ j, j < K → fires options (stateAfter c options problem j r0).self = false
  fired : fires options (stateAfter c options problem K r0).self = true
  self_eq : q.self = (stateAfter c options problem K r0).self
  kind : q.summary.termination_type = firedKind q.self options
  final_cost : q.summary.final_cost = q.self.global_minimum_state.cost
  num_iterations : q.summary.num_iterations = q.self.num_iterations
  parameters : q.parameters = q.self.global_minimum_state.x
  loop_iterations : q.calls.loop_iterations = r0.calls.loop_iterations + K

/-- A state whose cost is the objective's cost at its point. -/
def consistent (cost : Vector → Scalar) (s : State) : Prop :=
  s.cost = cost s.x

/-! ## Concrete collaborators used as test inputs -/

/-- A state of dimension `n` with every entry zero. -/
def zeroState (n : Nat) : State :=
  { x := List.replicate n 0, cost := 0, gradient := List.replicate n 0,
    gradient_squared_norm := 0, gradient_max_norm := 0 }

/-- An orchestrator object whose three states are zero states of dimension `n`. -/
def freshBasinhopping (n : Nat) : Basinhopping :=
  { current_state := zeroState n, candidate_state := zeroState n,
    global_minimum_state := zeroState n, num_iterations := 0, num_stagnant_iterations := 0 }

/-- The summary built by `Basinhopping::Summary::Summary()` (lines 73-85). -/
def defaultSummary : Summary :=
  { termination_type := TerminationType.FAILURE
    message := "pallas::Basinhopping was not called."
    initial_cost := -1, final_cost := -1, num_parameters := 0, num_iterations := 0
    local_minimization_summary :=
      { termination_type := TerminationType.FAILURE, message := "" } }

/-- Modelled from the spec: the default `Plus` of the objective adapter, which is not among
the sources ("default is `x + delta`"): elementwise addition, never failing. -/
def defaultPlus (x delta : Vector) : Option Vector :=
  some (List.zipWith (fun a b => a + b) x delta)

/-- The objective `cost(x) = x²` with gradient `2x`. -/
def squareProblem : GradientProblem :=
  { NumParameters := 1
    Evaluate := fun _ x _ _ => (true, squaredNorm x, x.map (fun a => 2 * a))
    Plus := defaultPlus }

/-- The objective `cost(x) = x` (sum of the entries) with gradient 1. -/
def linearProblem : GradientProblem :=
  { NumParameters := 1
    Evaluate := fun _ x _ _ => (true, x.sum, x.map (fun _ => 1))
    Plus := defaultPlus }

/-- An objective whose evaluation always fails and writes nothing. -/
def failingProblem : GradientProblem :=
  { NumParameters := 1
    Evaluate := fun _ _ cost gradient => (false, cost, gradient)
    Plus := defaultPlus }

/-- The objective `cost(x) = x²` whose `k`-th evaluation fails (writing nothing) exactly when
`fails k` holds. -/
def flakySquareProblem (fails : Nat → Bool) : GradientProblem :=
  { NumParameters := 1
    Evaluate := fun k x cost gradient =>
      if fails k then (false, cost, gradient)
      else (true, squaredNorm x, x.map (fun a => 2 * a))
    Plus := defaultPlus }

/-- A local minimizer that always moves every coordinate to 0 and reports convergence. -/
def idealMinimizer (_ : Nat) (x : Vector) : Vector × LocalSummary :=
  (x.map (fun _ => 0),
    { termination_type := TerminationType.CONVERGENCE, message := "converged" })

/-- A local minimizer that leaves the point where it is and reports convergence. -/
def idleMinimizer (_ : Nat) (x : Vector) : Vector × LocalSummary :=
  (x, { termination_type := TerminationType.CONVERGENCE, message := "converged" })

/-- A local minimizer that moves every coordinate to 3 and then reports failure. -/
def brokenMinimizer (_ : Nat) (x : Vector) : Vector × LocalSummary :=
  (x.map (fun _ => 3),
    { termination_type := TerminationType.FAILURE, message := "line search failed" })

/-- An acceptance test that accepts exactly the candidates that are not worse. -/
def greedy (_ : Nat) (candidate current : Scalar) : Bool :=
  decide (candidate ≤ current)

/-- Ideal local minimizer, greedy acceptance, zero-initialised states. -/
def idealCollaborators : Collaborators :=
  { local_minimizer := idealMinimizer, metropolis := greedy, newState := zeroState }

/-- Idle local minimizer, greedy acceptance, zero-initialised states. -/
def idleCollaborators : Collaborators :=
  { local_minimizer := idleMinimizer, metropolis := greedy, newState := zeroState }

/-- Failing local minimizer, greedy acceptance, zero-initialised states. -/
def brokenCollaborators : Collaborators :=
  { local_minimizer := brokenMinimizer, metropolis := greedy, newState := zeroState }

/-- A step strategy that adds 3 to every coordinate. -/
def shiftStep (_ : Nat) (x : Vector) : Vector :=
  x.map (fun a => a + 3)

/-- A step strategy that lowers every coordinate by 1 on its first call and raises it by 5 on
every later call. -/
def downThenUpStep (k : Nat) (x : Vector) : Vector :=
  if k = 0 then x.map (fun a => a - 1) else x.map (fun a => a + 5)

/-- Scenario A of the spec: `minimum_cost = -1`, `max_iterations = 5`. -/
def scenarioA : Options :=
  { step_function := shiftStep, minimum_cost := -1, max_iterations := 5,
    max_stagnant_iterations := 20 }

/-- Scenario B of the spec: `minimum_cost = 1`. -/
def scenarioB : Options :=
  { step_function := shiftStep, minimum_cost := 1, max_iterations := 5,
    max_stagnant_iterations := 20 }

/-- The objective `cost(x) = x²` that cannot be evaluated at the point `hole` (the
evaluation fails there and writes nothing). -/
def puncturedSquareProblem (hole : Vector) : GradientProblem :=
  { NumParameters := 1
    Evaluate := fun _ x cost gradient =>
      if x = hole then (false, cost, gradient)
      else (true, squaredNorm x, x.map (fun a => 2 * a))
    Plus := defaultPlus }

/-- A local minimizer that leaves the point where it is, reporting failure when started at
`hole` and convergence elsewhere. -/
def cautiousMinimizer (hole : Vector) (_ : Nat) (x : Vector) : Vector × LocalSummary :=
  if x = hole then
    (x, { termination_type := TerminationType.FAILURE,
          message := "Initial cost and jacobian evaluation failed." })
  else (x, { termination_type := TerminationType.CONVERGENCE, message := "converged" })

/-- Cautious local minimizer, greedy acceptance, zero-initialised states. -/
def cautiousCollaborators (hole : Vector) : Collaborators :=
  { local_minimizer := cautiousMinimizer hole, metropolis := greedy, newState := zeroState }

/-- Options with a stagnation budget of one iteration and an iteration budget of four. -/
def stagnationOptions : Options :=
  { step_function := downThenUpStep, minimum_cost := -100, max_iterations := 4,
    max_stagnant_iterations := 1 }

/-- Options with an iteration budget of two. -/
def twoIterations : Options :=
  { step_function := shiftStep, minimum_cost := -1, max_iterations := 2,
    max_stagnant_iterations := 20 }

/-- An objective `x²` whose `Plus` operation always reports failure. -/
def stuckPlusProblem : GradientProblem :=
  { NumParameters := 1
    Evaluate := fun _ x _ _ => (true, squaredNorm x, x.map (fun a => 2 * a))
    Plus := fun _ _ => none }

/-- A step strategy that never moves the point. -/
def stillStep (_ : Nat) (x : Vector) : Vector := x

/-- Scenario D of the spec: the step never moves the point; stagnation budget 2. -/
def scenarioD : Options :=
  { step_function := stillStep, minimum_cost := -1, max_iterations := 10,
    max_stagnant_iterations := 2 }

/-! ## Costs that may be NaN

An objective can report success and still return NaN as its cost. Every comparison with NaN
is false, which matters wherever a claim turns a failed `<` into a `>=`. The namespace
`ieee` repeats the orchestrator with costs of type `Double`, which adds NaN to the exact
values; the definitions are those above, line for line, with the type of the cost changed.
Points, gradients and the two gradient norms keep exact entries: the orchestrator never
compares them. -/

/-- A `double` as far as the comparisons of the orchestrator can tell: a value that is not
NaN, modelled by an exact integer, or NaN. -/
inductive Double where
  | finite (v : Int)
  | nan
deriving DecidableEq, Repr

/-- The comparison `a < b` of two doubles: false as soon as one of them is NaN. -/
def Double.lt : Double → Double → Bool
  | Double.finite a, Double.finite b => decide (a < b)
  | _, _ => false

/-- The comparison `a <= b` of two doubles: false as soon as one of them is NaN. -/
def Double.le : Double → Double → Bool
  | Double.finite a, Double.finite b => decide (a ≤ b)
  | _, _ => false

instance : LT Double := ⟨fun a b => Double.lt a b = true⟩

instance : LE Double := ⟨fun a b => Double.le a b = true⟩

instance (a b : Double) : Decidable (a < b) :=
  inferInstanceAs (Decidable (Double.lt a b = true))

instance (a b : Double) : Decidable (a ≤ b) :=
  inferInstanceAs (Decidable (Double.le a b = true))

namespace ieee

/-- Modelled from the spec: the fields of `internal::State`, whose declaration is not among
the sources ("`{ x, cost, gradient, gradient_squared_norm, gradient_max_norm }`"). -/
structure State where
  x : Vector
  cost : Double
  gradient : Vector
  gradient_squared_norm : Scalar
  gradient_max_norm : Scalar
deriving DecidableEq, Repr

/-- Modelled from the spec: `State::update`, not among the sources. "If `other.cost <
self.cost`, overwrite self with `other` and report replaced; otherwise report not replaced."
The result is the new value of `self` and the report. -/
def State.update (self other : State) : State × Bool :=
  if other.cost < self.cost then (other, true) else (self, false)

/-- The `GradientProblem` interface used by the orchestrator. `Evaluate k x cost gradient` is
the `k`-th call `problem.Evaluate(x, &cost, gradient)`: it receives the current contents of
the two output locations and returns the success flag with their new contents (a failing
call may or may not have written to them). `Plus x delta` is `problem.Plus`, `none` when it
reports failure. -/
structure GradientProblem where
  NumParameters : Nat
  Evaluate : Nat → Vector → Double → Vector → Bool × Double × Vector
  Plus : Vector → Vector → Option Vector

/-- The fields of `Basinhopping::Options` that influence control flow. `step_function k x` is
the `k`-th call `options.step_function->Step(x, n)` and returns the buffer it leaves. -/
structure Options where
  step_function : Nat → Vector → Vector
  minimum_cost : Double
  max_iterations : Nat
  max_stagnant_iterations : Nat

/-- Collaborators of `Solve` whose code is outside the orchestrator:
`local_minimizer k x` is the `k`-th call `local_minimizer.Solve(options, problem, x, &s)` and
returns the buffer it leaves together with its summary; `metropolis k candidate current` is
the `k`-th acceptance decision; `newState n` is the value built by `internal::State(n)`. -/
structure Collaborators where
  local_minimizer : Nat → Vector → Vector × LocalSummary
  metropolis : Nat → Double → Double → Bool
  newState : Nat → State

/-- The `Basinhopping::Summary` record (timing buckets left out). -/
structure Summary where
  termination_type : TerminationType
  message : String
  initial_cost : Double
  final_cost : Double
  num_parameters : Nat
  num_iterations : Nat
  local_minimization_summary : LocalSummary
deriving DecidableEq, Repr

/-- The member variables of a `Basinhopping` object. -/
structure Basinhopping where
  current_state : State
  candidate_state : State
  global_minimum_state : State
  num_iterations : Nat
  num_stagnant_iterations : Nat
deriving DecidableEq, Repr

/-- Everything `Solve` reads and writes: the orchestrator object, the caller's summary, the
caller's parameter buffer (the view `x`), the local flag `new_global_min`, and the call
counts. -/
structure Run where
  self : Basinhopping
  summary : Summary
  parameters : Vector
  new_global_min : Bool
  calls : Calls
deriving DecidableEq, Repr

/-- The file-local helper `Evaluate(problem, x, state, message)` (lines 46-69); `k` is the
number of earlier calls to `problem.Evaluate`. Returns the success flag, the state and the
message. -/
def Evaluate (problem : GradientProblem) (k : Nat) (x : Vector) (state : State)
    (message : String) : Bool × State × String :=
  match problem.Evaluate k x state.cost state.gradient with
  | (false, c, g) =>
      (false, { state with cost := c, gradient := g }, "Gradient evaluation failed.")
  | (true, c, g) =>
      let negative_gradient : Vector := g.map (fun a => -a)
      match problem.Plus x negative_gradient with
      | none =>
          (false, { state with cost := c, gradient := g },
            "projected_gradient_step = Plus(x, -gradient) failed.")
      | some projected_gradient_step =>
          (true,
            { state with
                cost := c
                gradient := g
                gradient_squared_norm := squaredNorm (vsub x projected_gradient_step)
                gradient_max_norm := lpNormInfinity (vsub x projected_gradient_step) },
            message)

/-- Modelled from the spec: `internal::IsSolutionUsable`, not among the sources. The result
is usable "iff termination kind is not `FAILURE`/`USER_FAILURE`". -/
def IsSolutionUsable (summary : Summary) : Bool :=
  summary.termination_type != TerminationType.FAILURE &&
    summary.termination_type != TerminationType.USER_FAILURE

/-- `Basinhopping::check_for_termination_` (lines 275-293): the returned flag with the
message and the termination type it leaves. -/
def check_for_termination_ (self : Basinhopping) (options : Options) (message : String)
    (termination_type : TerminationType) : Bool × String × TerminationType :=
  if self.global_minimum_state.cost < options.minimum_cost then
    (true, "Prescribed minimum cost reached.", TerminationType.USER_SUCCESS)
  else if self.num_iterations ≥ options.max_iterations then
    (true, "Maximum number of iterations reached.", TerminationType.NO_CONVERGENCE)
  else if self.num_stagnant_iterations ≥ options.max_stagnant_iterations then
    (true, "Maximum number of stagnant iterations reached.", TerminationType.CONVERGENCE)
  else
    (false, message, termination_type)

/-- `Basinhopping::prepare_final_summary_` (lines 295-300). -/
def prepare_final_summary_ (self : Basinhopping) (global_summary : Summary)
    (local_summary : LocalSummary) : Summary :=
  { global_summary with
      final_cost := self.global_minimum_state.cost
      num_iterations := self.num_iterations
      local_minimization_summary := local_summary }

/-- The termination check as `Solve` uses it at lines 217-222 and 263-270: when
`check_for_termination_` fires, the summary is finalised and the global best is copied to
the caller's buffer if the solution is usable. The flag tells whether `Solve` returns. -/
def finish (options : Options) (local_summary : LocalSummary) (r : Run) : Run × Bool :=
  match check_for_termination_ r.self options r.summary.message r.summary.termination_type with
  | (true, message, termination_type) =>
      let s1 : Summary := { r.summary with message := message, termination_type := termination_type }
      let s2 := prepare_final_summary_ r.self s1 local_summary
      if IsSolutionUsable s2 then
        ({ r with
            summary := s2
            parameters := r.self.global_minimum_state.x
            calls := { r.calls with buffer_writes := r.calls.buffer_writes + 1 } }, true)
      else
        ({ r with summary := s2 }, true)
  | (false, message, termination_type) =>
      ({ r with
          summary := { r.summary with message := message, termination_type := termination_type } },
        false)

/-- The body of the `while (true)` loop up to the termination check (lines 226-261): the
run after `++num_iterations`, and the `local_summary` of this iteration. -/
def loopBody (c : Collaborators) (options : Options) (problem : GradientProblem)
    (r : Run) : Run × LocalSummary :=
  -- options.step_function->Step(candidate_state.x.data(), num_parameters)
  let x1 := options.step_function r.calls.steps r.self.candidate_state.x
  -- local_minimizer.Solve(..., candidate_state.x.data(), &local_summary)
  let lm := c.local_minimizer r.calls.local_minimizations x1
  let cand0 : State := { r.self.candidate_state with x := lm.1 }
  -- Evaluate(problem, candidate_state.x, &candidate_state, &global_summary->message)
  let ev := Evaluate problem r.calls.evaluations cand0.x cand0 r.summary.message
  let candidate_state := ev.2.1
  let summary1 : Summary :=
    if ev.1 then { r.summary with message := ev.2.2 }
    else
      { r.summary with
          termination_type := TerminationType.FAILURE
          message := "Cost and jacobian evaluation failed. " ++ "More details: " ++ ev.2.2 }
  -- accept = metropolis(candidate_state.cost, current_state.cost)
  let accept := c.metropolis r.calls.acceptance_tests candidate_state.cost r.self.current_state.cost
  -- if (accept) { current_state = candidate_state;
  --               new_global_min = global_minimum_state.update(current_state); }
  let current_state := if accept then candidate_state else r.self.current_state
  let upd : State × Bool :=
    if accept then r.self.global_minimum_state.update current_state
    else (r.self.global_minimum_state, r.new_global_min)
  let new_global_min := upd.2
  -- if (new_global_min) num_stagnant_iterations = 0; else ++num_stagnant_iterations;
  let num_stagnant_iterations :=
    if new_global_min then 0 else r.self.num_stagnant_iterations + 1
  let self1 : Basinhopping :=
    { current_state := current_state
      candidate_state := candidate_state
      global_minimum_state := upd.1
      num_iterations := r.self.num_iterations + 1
      num_stagnant_iterations := num_stagnant_iterations }
  let calls1 : Calls :=
    { r.calls with
        steps := r.calls.steps + 1
        local_minimizations := r.calls.local_minimizations + 1
        evaluations := r.calls.evaluations + 1
        acceptance_tests := r.calls.acceptance_tests + 1
        loop_iterations := r.calls.loop_iterations + 1 }
  ({ r with self := self1, summary := summary1, new_global_min := new_global_min, calls := calls1 },
    lm.2)

/-- One execution of the body of the `while (true)` loop (lines 226-270). The flag tells
whether the body returned from `Solve`. -/
def iteration (c : Collaborators) (options : Options) (problem : GradientProblem)
    (r : Run) : Run × Bool :=
  finish options (loopBody c options problem r).2 (loopBody c options problem r).1

/-- The `while (true)` loop (lines 225-271), with fuel. -/
def mainLoop (c : Collaborators) (options : Options) (problem : GradientProblem) :
    Nat → Run → Option Run
  | 0, _ => none
  | fuel + 1, r =>
      match iteration c options problem r with
      | (r1, true) => some r1
      | (r1, false) => mainLoop c options problem fuel r1

/-- `Basinhopping::Solve` (lines 142-273). `self` is the orchestrator object as the call
finds it, `global_summary` the caller's summary as passed in, `parameters` the caller's
buffer. -/
def Solve (c : Collaborators) (fuel : Nat) (self : Basinhopping) (options : Options)
    (problem : GradientProblem) (parameters : Vector) (global_summary : Summary) :
    Option Run :=
  -- num_iterations = 0; num_stagnant_iterations = 0;
  let num_parameters := problem.NumParameters
  let summary0 : Summary := { global_summary with num_parameters := num_parameters }
  -- current_state = internal::State(num_parameters); current_state.x = x;
  let cur0 : State := { c.newState num_parameters with x := parameters }
  -- evaluate problem with initial parameters
  let ev0 := Evaluate problem 0 cur0.x cur0 summary0.message
  let cur1 := ev0.2.1
  let summary1 : Summary :=
    if ev0.1 then { summary0 with message := ev0.2.2 }
    else
      { summary0 with
          termination_type := TerminationType.FAILURE
          message := "Initial cost and jacobian evaluation failed. " ++ "More details: " ++ ev0.2.2 }
  let summary2 : Summary := { summary1 with initial_cost := cur1.cost }
  -- minimize problem with initial parameters
  let lm := c.local_minimizer 0 cur1.x
  let local_summary := lm.2
  let cur2 : State := { cur1 with x := lm.1 }
  if local_summary.termination_type ≠ TerminationType.FAILURE ∧
      local_summary.termination_type ≠ TerminationType.USER_FAILURE then
    let ev1 := Evaluate problem 1 cur2.x cur2 summary2.message
    let cur3 := ev1.2.1
    let r0 : Run :=
      if ev1.1 then
        { self :=
            { current_state := cur3
              candidate_state := cur3
              global_minimum_state := cur3
              num_iterations := 1
              num_stagnant_iterations := 0 }
          summary := { summary2 with message := ev1.2.2 }
          parameters := parameters
          new_global_min := false
          calls := { Calls.zero with evaluations := 2, local_minimizations := 1 } }
      else
        { self :=
            { self with
                current_state := cur3
                num_iterations := 0
                num_stagnant_iterations := 0 }
          summary :=
            { summary2 with
                termination_type := TerminationType.FAILURE
                message :=
                  "Initial cost and jacobian evaluation failed. " ++ "More details: " ++ ev1.2.2 }
          parameters := parameters
          new_global_min := false
          calls := { Calls.zero with evaluations := 2, local_minimizations := 1 } }
    -- check that initial minimization didn't satisfy termination conditions
    match finish options local_summary r0 with
    | (r1, true) => some r1
    | (r1, false) => mainLoop c options problem fuel r1
  else
    let self1 : Basinhopping :=
      { self with current_state := cur2, num_iterations := 0, num_stagnant_iterations := 0 }
    let summary3 : Summary :=
      { summary2 with
          termination_type := TerminationType.FAILURE
          message := "Initial local minimization iteration failed." ++ "More details: " ++
            local_summary.message }
    some
      { self := self1
        summary := prepare_final_summary_ self1 summary3 local_summary
        parameters := parameters
        new_global_min := false
        calls := { Calls.zero with evaluations := 1, local_minimizations := 1 } }

/-- The termination kind `check_for_termination_` writes when it fires. -/
def firedKind (self : Basinhopping) (options : Options) : TerminationType :=
  if self.global_minimum_state.cost < options.minimum_cost then TerminationType.USER_SUCCESS
  else if self.num_iterations ≥ options.max_iterations then TerminationType.NO_CONVERGENCE
  else TerminationType.CONVERGENCE

/-- The point the initial local minimization leaves and its summary (lines 179-184). The
local minimizer is handed `current_state.x`, which holds a copy of the caller's buffer. -/
def initialMinimization (c : Collaborators) (parameters : Vector) : Vector × LocalSummary :=
  c.local_minimizer 0 parameters

/-- Whether the initial local minimization reported `FAILURE` or `USER_FAILURE`. -/
def initialMinimizationFailed (c : Collaborators) (parameters : Vector) : Prop :=
  (initialMinimization c parameters).2.termination_type = TerminationType.FAILURE ∨
    (initialMinimization c parameters).2.termination_type = TerminationType.USER_FAILURE

instance (c : Collaborators) (parameters : Vector) :
    Decidable (initialMinimizationFailed c parameters) := by
  unfold initialMinimizationFailed
  infer_instance

/-- The first evaluation of `Solve` (line 168), at the caller's point. -/
def firstEvaluation (c : Collaborators) (problem : GradientProblem) (parameters : Vector)
    (global_summary : Summary) : Bool × State × String :=
  Evaluate problem 0 parameters { c.newState problem.NumParameters with x := parameters }
    global_summary.message

/-- The second evaluation of `Solve` (line 194), at the locally minimised start point. -/
def secondEvaluation (c : Collaborators) (problem : GradientProblem) (parameters : Vector)
    (global_summary : Summary) : Bool × State × String :=
  Evaluate problem 1 (initialMinimization c parameters).1
    { (firstEvaluation c problem parameters global_summary).2.1 with
        x := (initialMinimization c parameters).1 }
    (if (firstEvaluation c problem parameters global_summary).1 then
        (firstEvaluation c problem parameters global_summary).2.2
      else
        "Initial cost and jacobian evaluation failed. " ++ "More details: " ++
          (firstEvaluation c problem parameters global_summary).2.2)

/-- The summary after the first evaluation and the assignment of `initial_cost`
(lines 162-175). -/
def initialSummary (c : Collaborators) (problem : GradientProblem) (parameters : Vector)
    (global_summary : Summary) : Summary :=
  if (firstEvaluation c problem parameters global_summary).1 then
    { global_summary with
        num_parameters := problem.NumParameters
        message := (firstEvaluation c problem parameters global_summary).2.2
        initial_cost := (firstEvaluation c problem parameters global_summary).2.1.cost }
  else
    { global_summary with
        num_parameters := problem.NumParameters
        termination_type := TerminationType.FAILURE
        message := "Initial cost and jacobian evaluation failed. " ++ "More details: " ++
          (firstEvaluation c problem parameters global_summary).2.2
        initial_cost := (firstEvaluation c problem parameters global_summary).2.1.cost }

/-- The run as it stands at line 215, before the first termination check, when the initial
local minimization did not fail. -/
def initialRun (c : Collaborators) (self : Basinhopping) (problem : GradientProblem)
    (parameters : Vector) (global_summary : Summary) : Run :=
  if (secondEvaluation c problem parameters global_summary).1 then
    { self :=
        { current_state := (secondEvaluation c problem parameters global_summary).2.1
          candidate_state := (secondEvaluation c problem parameters global_summary).2.1
          global_minimum_state := (secondEvaluation c problem parameters global_summary).2.1
          num_iterations := 1
          num_stagnant_iterations := 0 }
      summary :=
        { initialSummary c problem parameters global_summary with
            message := (secondEvaluation c problem parameters global_summary).2.2 }
      parameters := parameters
      new_global_min := false
      calls := { Calls.zero with evaluations := 2, local_minimizations := 1 } }
  else
    { self :=
        { self with
            current_state := (secondEvaluation c problem parameters global_summary).2.1
            num_iterations := 0
            num_stagnant_iterations := 0 }
      summary :=
        { initialSummary c problem parameters global_summary with
            termination_type := TerminationType.FAILURE
            message := "Initial cost and jacobian evaluation failed. " ++ "More details: " ++
              (secondEvaluation c problem parameters global_summary).2.2 }
      parameters := parameters
      new_global_min := false
      calls := { Calls.zero with evaluations := 2, local_minimizations := 1 } }

/-- The run `Solve` returns at line 212, when the initial local minimization failed. -/
def failedRun (c : Collaborators) (self : Basinhopping) (problem : GradientProblem)
    (parameters : Vector) (global_summary : Summary) : Run :=
  { self :=
      { self with
          current_state :=
            { (firstEvaluation c problem parameters global_summary).2.1 with
                x := (initialMinimization c parameters).1 }
          num_iterations := 0
          num_stagnant_iterations := 0 }
    summary :=
      { initialSummary c problem parameters global_summary with
          termination_type := TerminationType.FAILURE
          message := "Initial local minimization iteration failed." ++ "More details: " ++
            (initialMinimization c parameters).2.message
          final_cost := self.global_minimum_state.cost
          num_iterations := 0
          local_minimization_summary := (initialMinimization c parameters).2 }
    parameters := parameters
    new_global_min := false
    calls := { Calls.zero with evaluations := 1, local_minimizations := 1 } }

/-- The run observed after `k` executions of the loop body (with its termination check),
started from `r`. -/
def stateAfter (c : Collaborators) (options : Options) (problem : GradientProblem) :
    Nat → Run → Run
  | 0, r => r
  | k + 1, r => (iteration c options problem (stateAfter c options problem k r)).1

/-- The cost of `candidate_state` after the evaluation of the loop body started from `r`
(line 239), the first argument of the acceptance test. -/
def candidateCost (c : Collaborators) (options : Options) (problem : GradientProblem)
    (r : Run) : Double :=
  (loopBody c options problem r).1.self.candidate_state.cost

/-- The value of `accept` in the loop body started from `r` (line 247). -/
def accepted (c : Collaborators) (options : Options) (problem : GradientProblem)
    (r : Run) : Bool :=
  c.metropolis r.calls.acceptance_tests (candidateCost c options problem r)
    r.self.current_state.cost

/-- Whether the loop body started from `r` replaces the global best: the candidate is
accepted and `global_minimum_state.update` reports a replacement (lines 249-253). -/
def replaced (c : Collaborators) (options : Options) (problem : GradientProblem)
    (r : Run) : Bool :=
  accepted c options problem r &&
    decide (candidateCost c options problem r < r.self.global_minimum_state.cost)

/-- Whether `check_for_termination_` fires on the orchestrator object `b`. -/
def fires (options : Options) (b : Basinhopping) : Bool :=
  decide (b.global_minimum_state.cost < options.minimum_cost ∨
    b.num_iterations ≥ options.max_iterations ∨
    b.num_stagnant_iterations ≥ options.max_stagnant_iterations)

/-- The run `q` is the one `Solve` returns when, started from the run `r0` that reaches the
first termination check, the check fires for the first time after `K` loop iterations. -/
structure ReturnsAfter (c : Collaborators) (options : Options) (problem : GradientProblem)
    (r0 : Run) (K : Nat) (q : Run) : Prop where
  quiet : ∀ j, j < K → fires options (stateAfter c options problem j r0).self = false
  fired : fires options (stateAfter c options problem K r0).self = true
  self_eq : q.self = (stateAfter c options problem K r0).self
  kind : q.summary.termination_type = firedKind q.self options
  final_cost : q.summary.final_cost = q.self.global_minimum_state.cost
  num_iterations : q.summary.num_iterations = q.self.num_iterations
  parameters : q.parameters = q.self.global_minimum_state.x
  loop_iterations : q.calls.loop_iterations = r0.calls.loop_iterations + K

/-- A state of dimension `n` with every entry zero. -/
def zeroState (n : Nat) : State :=
  { x := List.replicate n 0, cost := Double.finite 0, gradient := List.replicate n 0,
    gradient_squared_norm := 0, gradient_max_norm := 0 }

/-- An orchestrator object whose three states are zero states of dimension `n`. -/
def freshBasinhopping (n : Nat) : Basinhopping :=
  { current_state := zeroState n, candidate_state := zeroState n,
    global_minimum_state := zeroState n, num_iterations := 0, num_stagnant_iterations := 0 }

/-- The summary built by `Basinhopping::Summary::Summary()` (lines 73-85). -/
def defaultSummary : Summary :=
  { termination_type := TerminationType.FAILURE
    message := "pallas::Basinhopping was not called."
    initial_cost := Double.finite (-1), final_cost := Double.finite (-1)
    num_parameters := 0, num_iterations := 0
    local_minimization_summary :=
      { termination_type := TerminationType.FAILURE, message := "" } }

/-- An objective that reports success at every point and returns NaN as its cost. -/
def nanProblem : GradientProblem :=
  { NumParameters := 1
    Evaluate := fun _ x _ _ => (true, Double.nan, x.map (fun a => 2 * a))
    Plus := defaultPlus }

/-- The objective `x²`, except that at the point `hole` it reports success and returns NaN
as its cost. -/
def nanAtProblem (hole : Vector) : GradientProblem :=
  { NumParameters := 1
    Evaluate := fun _ x _ _ =>
      (true, if x = hole then Double.nan else Double.finite (squaredNorm x),
        x.map (fun a => 2 * a))
    Plus := defaultPlus }

/-- An acceptance test that accepts exactly when `candidate <= current` holds. -/
def greedy (_ : Nat) (candidate current : Double) : Bool :=
  decide (candidate ≤ current)

/-- An acceptance test that accepts every candidate. -/
def acceptAll (_ : Nat) (_ _ : Double) : Bool := true

/-- Idle local minimizer, greedy acceptance, zero-initialised states. -/
def idleGreedy : Collaborators :=
  { local_minimizer := idleMinimizer, metropolis := greedy, newState := zeroState }

/-- Idle local minimizer, acceptance of every candidate, zero-initialised states. -/
def idleAcceptAll : Collaborators :=
  { local_minimizer := idleMinimizer, metropolis := acceptAll, newState := zeroState }

/-- Options with `minimum_cost = -1` and an iteration budget of two. -/
def twoIterations : Options :=
  { step_function := shiftStep, minimum_cost := Double.finite (-1), max_iterations := 2,
    max_stagnant_iterations := 20 }

/-- The run `Solve` returns for the objective whose cost is always NaN, from the start point
10, with an iteration budget of two: `NO_CONVERGENCE` with a NaN final cost. -/
def nanRun : Run :=
  { self :=
      { current_state :=
          { x := [10], cost := Double.nan, gradient := [20],
            gradient_squared_norm := 400, gradient_max_norm := 20 }
        candidate_state :=
          { x := [13], cost := Double.nan, gradient := [26],
            gradient_squared_norm := 676, gradient_max_norm := 26 }
        global_minimum_state :=
          { x := [10], cost := Double.nan, gradient := [20],
            gradient_squared_norm := 400, gradient_max_norm := 20 }
        num_iterations := 2
        num_stagnant_iterations := 1 }
    summary :=
      { termination_type := TerminationType.NO_CONVERGENCE
        message := "Maximum number of iterations reached."
        initial_cost := Double.nan, final_cost := Double.nan
        num_parameters := 1, num_iterations := 2
        local_minimization_summary :=
          { termination_type := TerminationType.CONVERGENCE, message := "converged" } }
    parameters := [10]
    new_global_min := false
    calls :=
      { evaluations := 3, local_minimizations := 2, steps := 1, acceptance_tests := 1,
        loop_iterations := 1, buffer_writes := 1 } }

/-- The run `Solve` returns for `x²` with a NaN cost at 13, from the start point 10, when the
candidate 13 is accepted: the global best keeps cost 100 and the current state has cost
NaN. -/
def nanCandidateRun : Run :=
  { self :=
      { current_state :=
          { x := [13], cost := Double.nan, gradient := [26],
            gradient_squared_norm := 676, gradient_max_norm := 26 }
        candidate_state :=
          { x := [13], cost := Double.nan, gradient := [26],
            gradient_squared_norm := 676, gradient_max_norm := 26 }
        global_minimum_state :=
          { x := [10], cost := Double.finite 100, gradient := [20],
            gradient_squared_norm := 400, gradient_max_norm := 20 }
        num_iterations := 2
        num_stagnant_iterations := 1 }
    summary :=
      { termination_type := TerminationType.NO_CONVERGENCE
        message := "Maximum number of iterations reached."
        initial_cost := Double.finite 100, final_cost := Double.finite 100
        num_parameters := 1, num_iterations := 2
        local_minimization_summary :=
          { termination_type := TerminationType.CONVERGENCE, message := "converged" } }
    parameters := [10]
    new_global_min := false
    calls :=
      { evaluations := 3, local_minimizations := 2, steps := 1, acceptance_tests := 1,
        loop_iterations := 1, buffer_writes := 1 } }

end ieee

/-! ## The termination check -/

theorem Evaluate_x (problem : GradientProblem) (k : Nat) (x : Vector) (state : State)
    (message : String) : (Evaluate problem k x state message).2.1.x = state.x := by
  unfold Evaluate
  split
  · rfl
  · dsimp only
    split <;> rfl

/-- When the check does not fire, `finish` leaves the run as it was, and none of the three
termination conditions holds. -/
theorem finish_false (options : Options) (ls : LocalSummary) (r : Run)
    (h : (finish options ls r).2 = false) :
    (finish options ls r).1 = r ∧
      ¬ r.self.global_minimum_state.cost < options.minimum_cost ∧
      r.self.num_iterations < options.max_iterations ∧
      r.self.num_stagnant_iterations < options.max_stagnant_iterations := by
  unfold finish check_for_termination_ at *
  split_ifs at * with h1 h2 h3 <;> simp_all [IsSolutionUsable, prepare_final_summary_]

/-- When the check fires, `finish` finalises the summary and writes the global best to the
caller's buffer. -/
theorem finish_true (options : Options) (ls : LocalSummary) (r : Run)
    (h : (finish options ls r).2 = true) :
    (finish options ls r).1.self = r.self ∧
      (finish options ls r).1.new_global_min = r.new_global_min ∧
      (finish options ls r).1.parameters = r.self.global_minimum_state.x ∧
      (finish options ls r).1.calls =
        { r.calls with buffer_writes := r.calls.buffer_writes + 1 } ∧
      (finish options ls r).1.summary.termination_type = firedKind r.self options ∧
      (finish options ls r).1.summary.final_cost = r.self.global_minimum_state.cost ∧
      (finish options ls r).1.summary.num_iterations = r.self.num_iterations ∧
      (finish options ls r).1.summary.local_minimization_summary = ls ∧
      (finish options ls r).1.summary.initial_cost = r.summary.initial_cost ∧
      (finish options ls r).1.summary.num_parameters = r.summary.num_parameters := by
  unfold finish check_for_termination_ firedKind at *
  split_ifs at * with h1 h2 h3 <;>
    simp_all [IsSolutionUsable, prepare_final_summary_]

/-! ## The structure of `Solve` -/

/-- The two ways `Solve` can return: at line 212 after a failed initial local minimization,
or through a termination check. -/
theorem Solve_eq (c : Collaborators) (fuel : Nat) (self : Basinhopping) (options : Options)
    (problem : GradientProblem) (parameters : Vector) (global_summary : Summary) :
    Solve c fuel self options problem parameters global_summary =
      if initialMinimizationFailed c parameters then
        some (failedRun c self problem parameters global_summary)
      else
        match finish options (initialMinimization c parameters).2
            (initialRun c self problem parameters global_summary) with
        | (r1, true) => some r1
        | (r1, false) => mainLoop c options problem fuel r1 := by
  unfold Solve initialMinimizationFailed
  simp only [Evaluate_x]
  by_cases h : (c.local_minimizer 0 parameters).2.termination_type ≠ TerminationType.FAILURE ∧
      (c.local_minimizer 0 parameters).2.termination_type ≠ TerminationType.USER_FAILURE
  · have h2 : ¬ ((initialMinimization c parameters).2.termination_type = TerminationType.FAILURE ∨
        (initialMinimization c parameters).2.termination_type = TerminationType.USER_FAILURE) := by
      unfold initialMinimization
      tauto
    rw [if_pos h, if_neg h2]
    unfold initialRun initialSummary secondEvaluation firstEvaluation initialMinimization
    split_ifs <;> rfl
  · have h2 : (initialMinimization c parameters).2.termination_type = TerminationType.FAILURE ∨
        (initialMinimization c parameters).2.termination_type = TerminationType.USER_FAILURE := by
      unfold initialMinimization
      tauto
    rw [if_neg h, if_pos h2]
    unfold failedRun initialSummary firstEvaluation initialMinimization prepare_final_summary_
    split_ifs <;> rfl

/-! ## The main loop -/

theorem loopBody_parameters (c : Collaborators) (options : Options) (problem : GradientProblem)
    (r : Run) : (loopBody c options problem r).1.parameters = r.parameters := rfl

theorem loopBody_buffer_writes (c : Collaborators) (options : Options)
    (problem : GradientProblem) (r : Run) :
    (loopBody c options problem r).1.calls.buffer_writes = r.calls.buffer_writes := rfl

theorem loopBody_num_iterations (c : Collaborators) (options : Options)
    (problem : GradientProblem) (r : Run) :
    (loopBody c options problem r).1.self.num_iterations = r.self.num_iterations + 1 := rfl

/-- The loop body never raises the cost of the tracked global best. -/
theorem loopBody_global_cost_le (c : Collaborators) (options : Options)
    (problem : GradientProblem) (r : Run) :
    (loopBody c options problem r).1.self.global_minimum_state.cost ≤
      r.self.global_minimum_state.cost := by
  simp only [loopBody, State.update]
  split_ifs with h1 h2
  · exact le_of_lt h2
  · exact le_refl _
  · exact le_refl _

/-- An iteration that does not return leaves the run its body produced, with the iteration
budget not yet exhausted. -/
theorem iteration_false (c : Collaborators) (options : Options) (problem : GradientProblem)
    (r : Run) (h : (iteration c options problem r).2 = false) :
    (iteration c options problem r).1 = (loopBody c options problem r).1 ∧
      r.self.num_iterations + 1 < options.max_iterations := by
  have hf := finish_false options (loopBody c options problem r).2
    (loopBody c options problem r).1 h
  exact ⟨hf.1, hf.2.2.1⟩

/-- With enough fuel for the remaining iteration budget the loop returns. -/
theorem mainLoop_returns (c : Collaborators) (options : Options) (problem : GradientProblem) :
    ∀ (fuel : Nat) (r : Run), r.self.num_iterations < options.max_iterations →
      options.max_iterations ≤ r.self.num_iterations + fuel →
      ∃ q, mainLoop c options problem fuel r = some q := by
  intro fuel
  induction fuel with
  | zero => intro r h1 h2; omega
  | succ n ih =>
    intro r h1 h2
    unfold mainLoop
    cases hit : iteration c options problem r with
    | mk r1 b =>
      cases b with
      | true => exact ⟨r1, rfl⟩
      | false =>
        have hb : (iteration c options problem r).2 = false := by rw [hit]
        have hf := iteration_false c options problem r hb
        have hr1 : r1 = (loopBody c options problem r).1 := by
          rw [← hf.1, hit]
        have hn : r1.self.num_iterations = r.self.num_iterations + 1 := by
          rw [hr1]; rfl
        exact ih r1 (by omega) (by omega)

/-- Loop induction: a property of runs that every non-returning iteration preserves holds of
the run from which the returning iteration starts. -/
theorem mainLoop_last (c : Collaborators) (options : Options) (problem : GradientProblem)
    (P : Run → Prop)
    (hstep : ∀ r, P r → (iteration c options problem r).2 = false →
      P (loopBody c options problem r).1) :
    ∀ (fuel : Nat) (r q : Run), P r → mainLoop c options problem fuel r = some q →
      ∃ r0, P r0 ∧ (iteration c options problem r0).2 = true ∧
        (iteration c options problem r0).1 = q := by
  intro fuel
  induction fuel with
  | zero => intro r q _ h; simp [mainLoop] at h
  | succ n ih =>
    intro r q hP h
    unfold mainLoop at h
    cases hit : iteration c options problem r with
    | mk r1 b =>
      rw [hit] at h
      cases b with
      | true =>
        simp only [Option.some.injEq] at h
        exact ⟨r, hP, by rw [hit], by rw [hit]; exact h⟩
      | false =>
        simp only at h
        have hb : (iteration c options problem r).2 = false := by rw [hit]
        have hf := iteration_false c options problem r hb
        have hr1 : r1 = (loopBody c options problem r).1 := by
          rw [← hf.1, hit]
        exact ih r1 q (hr1 ▸ hstep r hP hb) h

/-- What a returning iteration leaves, in terms of the run its body produced. -/
theorem iteration_true (c : Collaborators) (options : Options) (problem : GradientProblem)
    (r : Run) (h : (iteration c options problem r).2 = true) :
    (iteration c options problem r).1.self = (loopBody c options problem r).1.self ∧
      (iteration c options problem r).1.parameters =
        (loopBody c options problem r).1.self.global_minimum_state.x ∧
      (iteration c options problem r).1.calls.buffer_writes = r.calls.buffer_writes + 1 ∧
      (iteration c options problem r).1.summary.termination_type =
        firedKind (loopBody c options problem r).1.self options ∧
      (iteration c options problem r).1.summary.final_cost =
        (loopBody c options problem r).1.self.global_minimum_state.cost ∧
      (iteration c options problem r).1.summary.num_iterations = r.self.num_iterations + 1 := by
  have hf := finish_true options (loopBody c options problem r).2
    (loopBody c options problem r).1 h
  obtain ⟨h1, -, h3, h4, h5, h6, h7, -⟩ := hf
  refine ⟨h1, h3, ?_, h5, h6, h7⟩
  unfold iteration
  rw [h4]
  rfl

theorem firedKind_usable (self : Basinhopping) (options : Options) :
    firedKind self options ≠ TerminationType.FAILURE ∧
      firedKind self options ≠ TerminationType.USER_FAILURE := by
  unfold firedKind
  split_ifs <;> simp

theorem initialRun_num_iterations_le (c : Collaborators) (self : Basinhopping)
    (problem : GradientProblem) (parameters : Vector) (global_summary : Summary) :
    (initialRun c self problem parameters global_summary).self.num_iterations ≤ 1 := by
  unfold initialRun
  split_ifs <;> simp

theorem initialRun_frame (c : Collaborators) (self : Basinhopping)
    (problem : GradientProblem) (parameters : Vector) (global_summary : Summary) :
    (initialRun c self problem parameters global_summary).parameters = parameters ∧
      (initialRun c self problem parameters global_summary).calls =
        { Calls.zero with evaluations := 2, local_minimizations := 1 } ∧
      (initialRun c self problem parameters global_summary).new_global_min = false := by
  unfold initialRun
  split_ifs <;> simp

/-- When the initial local minimization does not fail and the fuel covers the iteration
budget, `Solve` returns through a termination check that fired: either the check at line 217
on the initial run, or the check at line 263 on the run produced by a loop body, which
started from a run satisfying any invariant `P` of the non-returning iterations. -/
theorem Solve_checked (c : Collaborators) (fuel : Nat) (self : Basinhopping)
    (options : Options) (problem : GradientProblem) (parameters : Vector)
    (global_summary : Summary) (P : Run → Prop)
    (hinit : P (initialRun c self problem parameters global_summary))
    (hstep : ∀ r, P r → (iteration c options problem r).2 = false →
      P (loopBody c options problem r).1)
    (hnf : ¬ initialMinimizationFailed c parameters)
    (hfuel : options.max_iterations ≤ fuel) :
    ∃ r0 ls,
      ((r0 = initialRun c self problem parameters global_summary ∧
          ls = (initialMinimization c parameters).2) ∨
        ∃ r, P r ∧ r0 = (loopBody c options problem r).1 ∧
          ls = (loopBody c options problem r).2) ∧
      (finish options ls r0).2 = true ∧
      Solve c fuel self options problem parameters global_summary =
        some (finish options ls r0).1 := by
  rw [Solve_eq, if_neg hnf]
  cases hfin : finish options (initialMinimization c parameters).2
      (initialRun c self problem parameters global_summary) with
  | mk r1 b =>
    cases b with
    | true =>
      refine ⟨_, _, Or.inl ⟨rfl, rfl⟩, ?_, ?_⟩
      · rw [hfin]
      · rw [hfin]
    | false =>
      simp only
      have hb : (finish options (initialMinimization c parameters).2
          (initialRun c self problem parameters global_summary)).2 = false := by rw [hfin]
      have hf := finish_false _ _ _ hb
      have hr1 : r1 = initialRun c self problem parameters global_summary := by
        rw [← hf.1, hfin]
      have hle := initialRun_num_iterations_le c self problem parameters global_summary
      obtain ⟨q, hq⟩ := mainLoop_returns c options problem fuel r1
        (by rw [hr1]; exact hf.2.2.1) (by omega)
      obtain ⟨r0, hP0, hit, hq0⟩ := mainLoop_last c options problem P hstep fuel r1 q
        (by rw [hr1]; exact hinit) hq
      refine ⟨(loopBody c options problem r0).1, (loopBody c options problem r0).2,
        Or.inr ⟨r0, hP0, rfl, rfl⟩, hit, ?_⟩
      rw [hq, ← hq0]
      rfl

/-- Every value `Solve` returns after a non-failing initial local minimization comes from a
termination check that fired (no assumption on the fuel). -/
theorem Solve_some_checked (c : Collaborators) (fuel : Nat) (self : Basinhopping)
    (options : Options) (problem : GradientProblem) (parameters : Vector)
    (global_summary : Summary) (P : Run → Prop)
    (hinit : P (initialRun c self problem parameters global_summary))
    (hstep : ∀ r, P r → (iteration c options problem r).2 = false →
      P (loopBody c options problem r).1)
    (hnf : ¬ initialMinimizationFailed c parameters) (q : Run)
    (hS : Solve c fuel self options problem parameters global_summary = some q) :
    ∃ r0 ls,
      ((r0 = initialRun c self problem parameters global_summary ∧
          ls = (initialMinimization c parameters).2) ∨
        ∃ r, P r ∧ r0 = (loopBody c options problem r).1 ∧
          ls = (loopBody c options problem r).2) ∧
      (finish options ls r0).2 = true ∧ q = (finish options ls r0).1 := by
  rw [Solve_eq, if_neg hnf] at hS
  cases hfin : finish options (initialMinimization c parameters).2
      (initialRun c self problem parameters global_summary) with
  | mk r1 b =>
    rw [hfin] at hS
    cases b with
    | true =>
      simp only [Option.some.injEq] at hS
      refine ⟨_, _, Or.inl ⟨rfl, rfl⟩, ?_, ?_⟩
      · rw [hfin]
      · rw [hfin, ← hS]
    | false =>
      simp only at hS
      have hb : (finish options (initialMinimization c parameters).2
          (initialRun c self problem parameters global_summary)).2 = false := by rw [hfin]
      have hf := finish_false _ _ _ hb
      have hr1 : r1 = initialRun c self problem parameters global_summary := by
        rw [← hf.1, hfin]
      obtain ⟨r0, hP0, hit, hq0⟩ := mainLoop_last c options problem P hstep fuel r1 q
        (by rw [hr1]; exact hinit) hS
      exact ⟨(loopBody c options problem r0).1, (loopBody c options problem r0).2,
        Or.inr ⟨r0, hP0, rfl, rfl⟩, hit, hq0.symm⟩

/-- The termination check never changes the orchestrator object. -/
theorem finish_self (options : Options) (ls : LocalSummary) (r : Run) :
    (finish options ls r).1.self = r.self := by
  unfold finish
  split
  · dsimp only
    split_ifs <;> rfl
  · rfl

theorem iteration_global_cost_le (c : Collaborators) (options : Options)
    (problem : GradientProblem) (r : Run) :
    (iteration c options problem r).1.self.global_minimum_state.cost ≤
      r.self.global_minimum_state.cost := by
  unfold iteration
  rw [finish_self]
  exact loopBody_global_cost_le c options problem r

/-! ## Claims -/

/-- C1 (usability invariant). Every run of `Solve` returns (given fuel covering the iteration
budget), and at return the caller's buffer has been written, exactly once and with
`global_minimum_state.x`, if and only if the termination kind in the summary is neither
`FAILURE` nor `USER_FAILURE`; otherwise the buffer is untouched. In particular every return
through `check_for_termination_`, that is every run whose initial local minimization did not
fail, leaves the tracked global-best point in the buffer. -/
theorem Solve_usability_invariant (c : Collaborators) (fuel : Nat) (self : Basinhopping)
    (options : Options) (problem : GradientProblem) (parameters : Vector)
    (global_summary : Summary) (hfuel : options.max_iterations ≤ fuel) :
    ∃ r, Solve c fuel self options problem parameters global_summary = some r ∧
      ((r.summary.termination_type ≠ TerminationType.FAILURE ∧
          r.summary.termination_type ≠ TerminationType.USER_FAILURE) ↔
        r.calls.buffer_writes = 1) ∧
      (r.calls.buffer_writes = 1 → r.parameters = r.self.global_minimum_state.x) ∧
      (r.calls.buffer_writes ≠ 1 → r.calls.buffer_writes = 0 ∧ r.parameters = parameters) ∧
      (¬ initialMinimizationFailed c parameters →
        r.parameters = r.self.global_minimum_state.x) := by
  by_cases hnf : initialMinimizationFailed c parameters
  · refine ⟨failedRun c self problem parameters global_summary, ?_, ?_, ?_, ?_, ?_⟩
    · rw [Solve_eq, if_pos hnf]
    · simp [failedRun, Calls.zero]
    · simp [failedRun, Calls.zero]
    · simp [failedRun, Calls.zero]
    · intro h; exact absurd hnf h
  · obtain ⟨r0, ls, hr0, hfin, hS⟩ := Solve_checked c fuel self options problem parameters
      global_summary (fun r => r.calls.buffer_writes = 0)
      (by
        show (initialRun c self problem parameters global_summary).calls.buffer_writes = 0
        rw [(initialRun_frame c self problem parameters global_summary).2.1]; rfl)
      (fun r hr _ => by
        show (loopBody c options problem r).1.calls.buffer_writes = 0
        rw [loopBody_buffer_writes]; exact hr) hnf hfuel
    have hw : r0.calls.buffer_writes = 0 := by
      rcases hr0 with ⟨h, -⟩ | ⟨r, hr, h, -⟩
      · rw [h, (initialRun_frame c self problem parameters global_summary).2.1]; rfl
      · rw [h, loopBody_buffer_writes]; exact hr
    obtain ⟨h1, -, h3, h4, h5, -⟩ := finish_true options ls r0 hfin
    have hk := firedKind_usable r0.self options
    have hwrites : (finish options ls r0).1.calls.buffer_writes = 1 := by
      rw [h4]; simp [hw]
    refine ⟨_, hS, ?_, ?_, ?_, ?_⟩
    · rw [h5]
      exact ⟨fun _ => hwrites, fun _ => hk⟩
    · intro _; rw [h3, h1]
    · intro h; exact absurd hwrites h
    · intro _; rw [h3, h1]

/-- Witness for C1: scenario A of the spec (`cost = x²`, start 10, ideal local minimizer,
`max_iterations = 5`) run with fuel 5. -/
theorem Solve_usability_invariant_witness :
    scenarioA.max_iterations ≤ 5 ∧
      ∃ r, Solve idealCollaborators 5 (freshBasinhopping 1) scenarioA squareProblem [10]
          defaultSummary = some r ∧
        ((r.summary.termination_type ≠ TerminationType.FAILURE ∧
            r.summary.termination_type ≠ TerminationType.USER_FAILURE) ↔
          r.calls.buffer_writes = 1) ∧
        (r.calls.buffer_writes = 1 → r.parameters = r.self.global_minimum_state.x) ∧
        (r.calls.buffer_writes ≠ 1 → r.calls.buffer_writes = 0 ∧ r.parameters = [10]) ∧
        (¬ initialMinimizationFailed idealCollaborators [10] →
          r.parameters = r.self.global_minimum_state.x) :=
  ⟨by decide,
    Solve_usability_invariant idealCollaborators 5 (freshBasinhopping 1) scenarioA squareProblem
      [10] defaultSummary (by decide)⟩

/-- C3 (monotonic global best). For all options, step strategies, objectives, local
minimizers and acceptance decisions, and from every run state `r` (in particular the one in
which `global_minimum_state` was initialised from the locally minimised start point): one
loop iteration never raises `global_minimum_state.cost`, the sequence of costs observed
after 0, 1, 2, ... iterations is non-increasing, the loop returns with a global-best cost
not above the one it started with, and `State::update` replaces exactly when
`other.cost < self.cost`. -/
theorem global_best_monotonic (c : Collaborators) (options : Options)
    (problem : GradientProblem) (r : Run) :
    (iteration c options problem r).1.self.global_minimum_state.cost ≤
        r.self.global_minimum_state.cost ∧
      (∀ k : Nat,
        (stateAfter c options problem (k + 1) r).self.global_minimum_state.cost ≤
          (stateAfter c options problem k r).self.global_minimum_state.cost) ∧
      (∀ (fuel : Nat) (q : Run), mainLoop c options problem fuel r = some q →
        q.self.global_minimum_state.cost ≤ r.self.global_minimum_state.cost) ∧
      (∀ s other : State, ((s.update other).2 = true ↔ other.cost < s.cost) ∧
        ((s.update other).2 = true → (s.update other).1 = other) ∧
        ((s.update other).2 = false → (s.update other).1 = s)) := by
  refine ⟨iteration_global_cost_le c options problem r, ?_, ?_, ?_⟩
  · intro k
    exact iteration_global_cost_le c options problem (stateAfter c options problem k r)
  · intro fuel q hq
    obtain ⟨r0, hP, -, hq0⟩ := mainLoop_last c options problem
      (fun t => t.self.global_minimum_state.cost ≤ r.self.global_minimum_state.cost)
      (fun t ht _ => le_trans (loopBody_global_cost_le c options problem t) ht)
      fuel r q (le_refl _) hq
    rw [← hq0]
    exact le_trans (iteration_global_cost_le c options problem r0) hP
  · intro s other
    unfold State.update
    split_ifs with h <;> simp [h]

/-- C4 (stagnation counting), evaluated on a run the claim excludes. Objective `cost(x) = x`,
start 10, idle local minimizer, greedy acceptance, a step that lowers the point once and
raises it afterwards, `max_stagnant_iterations = 1`. Iteration 1 replaces the global best
(cost 10 to 9) and sets the counter to 0. Iteration 2 proposes cost 14, which is rejected and
leaves the global best alone, yet the counter is 0 again instead of 1, because
`new_global_min` still holds the value of iteration 1. The run therefore ends with
`NO_CONVERGENCE` after 4 iterations, not with `CONVERGENCE` after 3. -/
theorem stagnation_counter_stale_flag :
    (stateAfter idleCollaborators stagnationOptions linearProblem 0
        (initialRun idleCollaborators (freshBasinhopping 1) linearProblem [10]
          defaultSummary)).self.global_minimum_state.cost = 10 ∧
      (stateAfter idleCollaborators stagnationOptions linearProblem 1
        (initialRun idleCollaborators (freshBasinhopping 1) linearProblem [10]
          defaultSummary)).self.global_minimum_state.cost = 9 ∧
      (stateAfter idleCollaborators stagnationOptions linearProblem 1
        (initialRun idleCollaborators (freshBasinhopping 1) linearProblem [10]
          defaultSummary)).self.num_stagnant_iterations = 0 ∧
      (stateAfter idleCollaborators stagnationOptions linearProblem 2
        (initialRun idleCollaborators (freshBasinhopping 1) linearProblem [10]
          defaultSummary)).self.candidate_state.cost = 14 ∧
      idleCollaborators.metropolis 1 14 9 = false ∧
      (stateAfter idleCollaborators stagnationOptions linearProblem 2
        (initialRun idleCollaborators (freshBasinhopping 1) linearProblem [10]
          defaultSummary)).self.global_minimum_state =
        (stateAfter idleCollaborators stagnationOptions linearProblem 1
          (initialRun idleCollaborators (freshBasinhopping 1) linearProblem [10]
            defaultSummary)).self.global_minimum_state ∧
      (stateAfter idleCollaborators stagnationOptions linearProblem 2
        (initialRun idleCollaborators (freshBasinhopping 1) linearProblem [10]
          defaultSummary)).self.num_stagnant_iterations = 0 ∧
      (Solve idleCollaborators 4 (freshBasinhopping 1) stagnationOptions linearProblem [10]
          defaultSummary).map
        (fun r => (r.summary.termination_type, r.summary.num_iterations,
          r.self.num_stagnant_iterations)) =
        some (TerminationType.NO_CONVERGENCE, 4, 0) := by
  decide

/-- C5 (failure of the initial evaluation), evaluated on runs the claim excludes. The
objective `x²` cannot be evaluated at the start point 10, so the first evaluation fails.
`Solve` does not return there: with the ideal local minimizer it goes on to call the local
minimizer 5 times and the step strategy 4 times, executes 4 loop iterations and returns
`NO_CONVERGENCE` with the buffer overwritten; with a local minimizer that itself fails at
the start point it still calls that minimizer once and returns through the
local-minimization failure path, whose message replaces the one of the failed evaluation. -/
theorem initial_evaluation_failure_not_returned :
    (firstEvaluation idealCollaborators (puncturedSquareProblem [10]) [10]
        defaultSummary).1 = false ∧
      (Solve idealCollaborators 5 (freshBasinhopping 1) scenarioA
          (puncturedSquareProblem [10]) [10] defaultSummary).map
        (fun r => (r.summary.termination_type, r.calls.local_minimizations, r.calls.steps,
          r.calls.loop_iterations, r.parameters)) =
        some (TerminationType.NO_CONVERGENCE, 5, 4, 4, [0]) ∧
      (Solve (cautiousCollaborators [10]) 5 (freshBasinhopping 1) scenarioA
          (puncturedSquareProblem [10]) [10] defaultSummary).map
        (fun r => (r.summary.termination_type, r.calls.local_minimizations,
          r.summary.message)) =
        some (TerminationType.FAILURE, 1,
          "Initial local minimization iteration failed.More details: " ++
            "Initial cost and jacobian evaluation failed.") := by
  decide

/-- C6 (failure propagation in the main loop), evaluated on a run the claim excludes. The
objective `x²` cannot be evaluated at 13, the point the first loop iteration proposes from
the start point 10. The loop body records `FAILURE`, but the candidate (with the stale cost
100 of the previous evaluation) is accepted as `current_state`, the loop goes on, and `Solve`
returns `NO_CONVERGENCE` after 5 iterations. -/
theorem loop_evaluation_failure_not_propagated :
    (puncturedSquareProblem [13]).Evaluate 2 [13] 100 [20] = (false, 100, [20]) ∧
      (loopBody (cautiousCollaborators [13]) scenarioA (puncturedSquareProblem [13])
          (initialRun (cautiousCollaborators [13]) (freshBasinhopping 1)
            (puncturedSquareProblem [13]) [10] defaultSummary)).1.summary.termination_type =
        TerminationType.FAILURE ∧
      (loopBody (cautiousCollaborators [13]) scenarioA (puncturedSquareProblem [13])
          (initialRun (cautiousCollaborators [13]) (freshBasinhopping 1)
            (puncturedSquareProblem [13]) [10] defaultSummary)).1.self.current_state.x =
        [13] ∧
      (iteration (cautiousCollaborators [13]) scenarioA (puncturedSquareProblem [13])
          (initialRun (cautiousCollaborators [13]) (freshBasinhopping 1)
            (puncturedSquareProblem [13]) [10] defaultSummary)).2 = false ∧
      (Solve (cautiousCollaborators [13]) 5 (freshBasinhopping 1) scenarioA
          (puncturedSquareProblem [13]) [10] defaultSummary).map
        (fun r => (r.summary.termination_type, r.summary.num_iterations,
          r.self.current_state.x, r.parameters)) =
        some (TerminationType.NO_CONVERGENCE, 5, [13], [10]) := by
  decide

/-- C7 (failure of the initial local minimization). If the initial local minimization
reports `FAILURE` or `USER_FAILURE` (whether or not the initial evaluation succeeded),
`Solve` returns, for every fuel, with kind `FAILURE`, a message that ends with the local
minimizer's message, `summary.num_iterations = 0`, no call of the step strategy, no loop
iteration, and the caller's buffer never written. -/
theorem initial_minimization_failure (c : Collaborators) (fuel : Nat) (self : Basinhopping)
    (options : Options) (problem : GradientProblem) (parameters : Vector)
    (global_summary : Summary)
    (hfail : (c.local_minimizer 0 parameters).2.termination_type = TerminationType.FAILURE ∨
      (c.local_minimizer 0 parameters).2.termination_type = TerminationType.USER_FAILURE) :
    ∃ r, Solve c fuel self options problem parameters global_summary = some r ∧
      r.summary.termination_type = TerminationType.FAILURE ∧
      r.summary.message =
        "Initial local minimization iteration failed." ++ "More details: " ++
          (c.local_minimizer 0 parameters).2.message ∧
      r.summary.num_iterations = 0 ∧
      r.calls.local_minimizations = 1 ∧
      r.calls.steps = 0 ∧
      r.calls.loop_iterations = 0 ∧
      r.calls.buffer_writes = 0 ∧
      r.parameters = parameters := by
  have hfail2 : initialMinimizationFailed c parameters := hfail
  refine ⟨failedRun c self problem parameters global_summary, ?_, ?_⟩
  · rw [Solve_eq, if_pos hfail2]
  · simp [failedRun, Calls.zero, initialMinimization]

/-- Witness for C7: `x²` from 10 with a local minimizer that reports `FAILURE`. -/
theorem initial_minimization_failure_witness :
    ∃ r, Solve brokenCollaborators 5 (freshBasinhopping 1) scenarioA squareProblem [10]
        defaultSummary = some r ∧
      r.summary.termination_type = TerminationType.FAILURE ∧
      r.summary.message =
        "Initial local minimization iteration failed." ++ "More details: " ++
          (brokenCollaborators.local_minimizer 0 [10]).2.message ∧
      r.summary.num_iterations = 0 ∧
      r.calls.local_minimizations = 1 ∧
      r.calls.steps = 0 ∧
      r.calls.loop_iterations = 0 ∧
      r.calls.buffer_writes = 0 ∧
      r.parameters = [10] :=
  initial_minimization_failure brokenCollaborators 5 (freshBasinhopping 1) scenarioA
    squareProblem [10] defaultSummary (Or.inl (by decide))

/-- C8 as stated fails: `x²` from 10 with a local minimizer that moves the point to 3 and
then reports `FAILURE`. The run ends with kind `FAILURE`, the last value the local minimizer
produced is 3, and the caller's buffer still holds 10. -/
theorem failure_buffer_differs_from_minimizer_output :
    ∃ r, Solve brokenCollaborators 5 (freshBasinhopping 1) scenarioA squareProblem [10]
        defaultSummary = some r ∧
      r.summary.termination_type = TerminationType.FAILURE ∧
      (brokenCollaborators.local_minimizer 0 [10]).1 = [3] ∧
      r.parameters ≠ (brokenCollaborators.local_minimizer 0 [10]).1 :=
  ⟨failedRun brokenCollaborators (freshBasinhopping 1) squareProblem [10] defaultSummary,
    by decide, by decide, by decide, by decide⟩

/-- C8 amended. Whenever `Solve` returns with kind `FAILURE` or `USER_FAILURE`, the caller's
buffer was never written and equals the caller's original input; the value the (initial, and
only) local minimization produced is held by the orchestrator's own `current_state.x`. -/
theorem failure_leaves_buffer_untouched (c : Collaborators) (fuel : Nat)
    (self : Basinhopping) (options : Options) (problem : GradientProblem)
    (parameters : Vector) (global_summary : Summary) (r : Run)
    (hS : Solve c fuel self options problem parameters global_summary = some r)
    (hkind : r.summary.termination_type = TerminationType.FAILURE ∨
      r.summary.termination_type = TerminationType.USER_FAILURE) :
    r.parameters = parameters ∧ r.calls.buffer_writes = 0 ∧
      r.calls.local_minimizations = 1 ∧
      r.self.current_state.x = (c.local_minimizer 0 parameters).1 := by
  by_cases hnf : initialMinimizationFailed c parameters
  · rw [Solve_eq, if_pos hnf] at hS
    simp only [Option.some.injEq] at hS
    rw [← hS]
    simp [failedRun, Calls.zero, initialMinimization]
  · obtain ⟨r0, ls, -, hfin, hr⟩ := Solve_some_checked c fuel self options problem
      parameters global_summary (fun _ => True) trivial (fun _ _ _ => trivial) hnf r hS
    obtain ⟨-, -, -, -, h5, -⟩ := finish_true options ls r0 hfin
    rw [hr, h5] at hkind
    have hk := firedKind_usable r0.self options
    rcases hkind with h | h
    · exact absurd h hk.1
    · exact absurd h hk.2

/-- Witness for C8 amended: the failing run of the counterexample leaves 10 in the buffer. -/
theorem failure_leaves_buffer_untouched_witness :
    (failedRun brokenCollaborators (freshBasinhopping 1) squareProblem [10]
        defaultSummary).parameters = [10] ∧
      (failedRun brokenCollaborators (freshBasinhopping 1) squareProblem [10]
        defaultSummary).calls.buffer_writes = 0 ∧
      (failedRun brokenCollaborators (freshBasinhopping 1) squareProblem [10]
        defaultSummary).calls.local_minimizations = 1 ∧
      (failedRun brokenCollaborators (freshBasinhopping 1) squareProblem [10]
        defaultSummary).self.current_state.x = (brokenCollaborators.local_minimizer 0 [10]).1 :=
  failure_leaves_buffer_untouched brokenCollaborators 5 (freshBasinhopping 1) scenarioA
    squareProblem [10] defaultSummary
    (failedRun brokenCollaborators (freshBasinhopping 1) squareProblem [10] defaultSummary)
    (by decide) (Or.inl (by decide))

/-- C9 (objective that always fails), evaluated on a run the claim excludes. Every evaluation
of the objective fails. The local minimizer leaves the point alone and reports convergence;
the orchestrator object was used before and still tracks the global best `x = 0`, cost 0.
Both initial evaluations fail, `Solve` nevertheless enters the loop, and after two
iterations returns `NO_CONVERGENCE` with the stale global best written to the caller's
buffer in place of the input 10. -/
theorem always_failing_objective_not_failure :
    (∀ (k : Nat) (x : Vector) (cost : Scalar) (gradient : Vector),
        (failingProblem.Evaluate k x cost gradient).1 = false) ∧
      (Solve idleCollaborators 2 (freshBasinhopping 1) twoIterations failingProblem [10]
          defaultSummary).map
        (fun r => (r.summary.termination_type, r.summary.num_iterations,
          r.calls.loop_iterations, r.parameters)) =
        some (TerminationType.NO_CONVERGENCE, 2, 2, [0]) :=
  ⟨fun _ _ _ _ => rfl, by decide⟩

/-- C10 (scenario B generalised). If the initial local minimization does not report
`FAILURE` or `USER_FAILURE`, the evaluation at the locally minimised start point succeeds
and its cost is below `options.minimum_cost`, then `Solve` returns, for every fuel, with
kind `USER_SUCCESS`, `summary.num_iterations = 1`, the step strategy never called, no loop
iteration executed, `summary.final_cost` equal to that cost, and the locally minimised
point in the caller's buffer. -/
theorem threshold_met_by_initial_minimization (c : Collaborators) (fuel : Nat)
    (self : Basinhopping) (options : Options) (problem : GradientProblem)
    (parameters : Vector) (global_summary : Summary)
    (hnf : (c.local_minimizer 0 parameters).2.termination_type ≠ TerminationType.FAILURE ∧
      (c.local_minimizer 0 parameters).2.termination_type ≠ TerminationType.USER_FAILURE)
    (heval : (secondEvaluation c problem parameters global_summary).1 = true)
    (hcost : (secondEvaluation c problem parameters global_summary).2.1.cost <
      options.minimum_cost) :
    ∃ r, Solve c fuel self options problem parameters global_summary = some r ∧
      r.summary.termination_type = TerminationType.USER_SUCCESS ∧
      r.summary.num_iterations = 1 ∧
      r.calls.steps = 0 ∧
      r.calls.loop_iterations = 0 ∧
      r.calls.local_minimizations = 1 ∧
      r.summary.final_cost = (secondEvaluation c problem parameters global_summary).2.1.cost ∧
      r.parameters = (c.local_minimizer 0 parameters).1 := by
  have hnf2 : ¬ initialMinimizationFailed c parameters := by
    unfold initialMinimizationFailed initialMinimization
    tauto
  have hinit : initialRun c self problem parameters global_summary =
      { self :=
          { current_state := (secondEvaluation c problem parameters global_summary).2.1
            candidate_state := (secondEvaluation c problem parameters global_summary).2.1
            global_minimum_state := (secondEvaluation c problem parameters global_summary).2.1
            num_iterations := 1
            num_stagnant_iterations := 0 }
        summary :=
          { initialSummary c problem parameters global_summary with
              message := (secondEvaluation c problem parameters global_summary).2.2 }
        parameters := parameters
        new_global_min := false
        calls := { Calls.zero with evaluations := 2, local_minimizations := 1 } } := by
    unfold initialRun
    rw [if_pos heval]
  have hx : (secondEvaluation c problem parameters global_summary).2.1.x =
      (c.local_minimizer 0 parameters).1 := by
    unfold secondEvaluation
    rw [Evaluate_x]
    rfl
  have hfin : (finish options (initialMinimization c parameters).2
      (initialRun c self problem parameters global_summary)).2 = true := by
    by_contra hb
    have hf := finish_false _ _ _ (Bool.eq_false_iff.mpr hb)
    apply hf.2.1
    rw [hinit]
    exact hcost
  obtain ⟨h1, -, h3, h4, h5, h6, h7, -⟩ := finish_true _ _ _ hfin
  refine ⟨(finish options (initialMinimization c parameters).2
      (initialRun c self problem parameters global_summary)).1, ?_, ?_, ?_, ?_, ?_, ?_, ?_, ?_⟩
  · rw [Solve_eq, if_neg hnf2]
    cases hf : finish options (initialMinimization c parameters).2
        (initialRun c self problem parameters global_summary) with
    | mk r1 b =>
      rw [hf] at hfin
      simp only at hfin
      rw [hfin]
  · rw [h5, hinit]
    unfold firedKind
    rw [if_pos hcost]
  · rw [h7, hinit]
  · simp only [h4, (initialRun_frame c self problem parameters global_summary).2.1, Calls.zero]
  · simp only [h4, (initialRun_frame c self problem parameters global_summary).2.1, Calls.zero]
  · simp only [h4, (initialRun_frame c self problem parameters global_summary).2.1, Calls.zero]
  · rw [h6, hinit]
  · rw [h3, hinit]
    exact hx

/-- Witness for C10: scenario B of the spec (`cost = x²`, start 10, a local minimizer that
reaches 0, `minimum_cost = 1`). -/
theorem threshold_met_by_initial_minimization_witness :
    (secondEvaluation idealCollaborators squareProblem [10] defaultSummary).2.1.cost = 0 ∧
      ∃ r, Solve idealCollaborators 0 (freshBasinhopping 1) scenarioB squareProblem [10]
          defaultSummary = some r ∧
        r.summary.termination_type = TerminationType.USER_SUCCESS ∧
        r.summary.num_iterations = 1 ∧
        r.calls.steps = 0 ∧
        r.calls.loop_iterations = 0 ∧
        r.calls.local_minimizations = 1 ∧
        r.summary.final_cost =
          (secondEvaluation idealCollaborators squareProblem [10] defaultSummary).2.1.cost ∧
        r.parameters = (idealCollaborators.local_minimizer 0 [10]).1 :=
  ⟨by decide,
    threshold_met_by_initial_minimization idealCollaborators 0 (freshBasinhopping 1) scenarioB
      squareProblem [10] defaultSummary ⟨by decide, by decide⟩ (by decide) (by decide)⟩

/-! ## The evaluation helper -/

theorem absScalar_eq_abs (a : Scalar) : absScalar a = |a| := by
  unfold absScalar
  split_ifs with h
  · exact (abs_of_neg h).symm
  · exact (abs_of_nonneg (not_lt.mp h)).symm

/-- The fold behind `lpNormInfinity` started at `m`: it is at least `m` and at least every
absolute entry, and it is `m` or one of the absolute entries. -/
theorem foldl_max_abs (v : Vector) :
    ∀ m : Scalar,
      m ≤ v.foldl (fun m a => max m (absScalar a)) m ∧
        (∀ a ∈ v, absScalar a ≤ v.foldl (fun m a => max m (absScalar a)) m) ∧
        (v.foldl (fun m a => max m (absScalar a)) m = m ∨
          ∃ a ∈ v, v.foldl (fun m a => max m (absScalar a)) m = absScalar a) := by
  induction v with
  | nil => intro m; simp
  | cons b t ih =>
    intro m
    obtain ⟨h1, h2, h3⟩ := ih (max m (absScalar b))
    simp only [List.foldl_cons, List.mem_cons, forall_eq_or_imp, exists_eq_or_imp]
    refine ⟨le_trans (le_max_left _ _) h1, ⟨le_trans (le_max_right _ _) h1, h2⟩, ?_⟩
    rcases h3 with h | ⟨a, ha, h⟩
    · rcases max_choice m (absScalar b) with hm | hm
      · left; rw [h, hm]
      · right; left; rw [h, hm]
    · right; right; exact ⟨a, ha, h⟩

theorem absScalar_nonneg (a : Scalar) : 0 ≤ absScalar a := by
  rw [absScalar_eq_abs]
  exact abs_nonneg a

/-- With the default `Plus`, the difference `x - Plus(x, -g)` is `g` again. -/
theorem vsub_defaultPlus (x : Vector) :
    ∀ g : Vector, g.length = x.length →
      vsub x (List.zipWith (fun a b => a + b) x (g.map (fun a => -a))) = g := by
  induction x with
  | nil =>
    intro g hg
    simp only [List.length_nil, List.length_eq_zero] at hg
    rw [hg]
    rfl
  | cons a t ih =>
    intro g hg
    cases g with
    | nil => simp at hg
    | cons b u =>
      simp only [List.length_cons, Nat.add_right_cancel_iff] at hg
      have := ih u hg
      unfold vsub at this ⊢
      simp only [List.map_cons, List.zipWith_cons_cons, List.cons.injEq]
      exact ⟨by ring, this⟩

/-- C15 (evaluation helper metrics). When `problem.Evaluate` succeeds at `x` with cost `c`
and gradient `g`, and `p = Plus(x, -g)` succeeds, the helper reports success, leaves the
message alone and sets `cost = c`, `gradient = g`, `gradient_squared_norm` to the sum of the
squares `(x_i - p_i)²` and `gradient_max_norm` to `lpNormInfinity (x - p)`, which is the
largest `|x_i - p_i|` (an upper bound of all of them that one of them attains; 0 for the
empty vector). With the default `Plus` and a gradient as long as `x`, `x - p = g`, so the
two metrics are the sum of the `g_i²` and the largest `|g_i|`. -/
theorem Evaluate_metrics (problem : GradientProblem) (k : Nat) (x : Vector) (state : State)
    (message : String) (c : Scalar) (g p : Vector)
    (hE : problem.Evaluate k x state.cost state.gradient = (true, c, g))
    (hP : problem.Plus x (g.map (fun a => -a)) = some p) :
    Evaluate problem k x state message =
        (true,
          { x := state.x, cost := c, gradient := g
            gradient_squared_norm := ((vsub x p).map (fun d => d * d)).sum
            gradient_max_norm := lpNormInfinity (vsub x p) },
          message) ∧
      (∀ d ∈ vsub x p, |d| ≤ lpNormInfinity (vsub x p)) ∧
      (vsub x p ≠ [] → ∃ d ∈ vsub x p, lpNormInfinity (vsub x p) = |d|) ∧
      (vsub x p = [] → lpNormInfinity (vsub x p) = 0) ∧
      (problem.Plus = defaultPlus → g.length = x.length →
        vsub x p = g ∧
          (Evaluate problem k x state message).2.1.gradient_squared_norm =
            (g.map (fun d => d * d)).sum ∧
          (Evaluate problem k x state message).2.1.gradient_max_norm = lpNormInfinity g) := by
  have hres : Evaluate problem k x state message =
      (true,
        { x := state.x, cost := c, gradient := g
          gradient_squared_norm := ((vsub x p).map (fun d => d * d)).sum
          gradient_max_norm := lpNormInfinity (vsub x p) },
        message) := by
    unfold Evaluate
    rw [hE]
    simp only [hP]
    rfl
  obtain ⟨-, hub, hatt⟩ := foldl_max_abs (vsub x p) 0
  refine ⟨hres, ?_, ?_, ?_, ?_⟩
  · intro d hd
    rw [← absScalar_eq_abs]
    exact hub d hd
  · intro hne
    rcases hatt with h0 | ⟨a, ha, h⟩
    · cases hv : vsub x p with
      | nil => exact absurd hv hne
      | cons b t =>
        have hb : b ∈ vsub x p := by rw [hv]; exact List.mem_cons_self b t
        refine ⟨b, List.mem_cons_self b t, ?_⟩
        rw [← hv]
        have h1 := hub b hb
        have h2 := absScalar_nonneg b
        have h3 : absScalar b = 0 := le_antisymm (h0 ▸ h1) h2
        unfold lpNormInfinity
        rw [← absScalar_eq_abs, h3]
        exact h0
    · exact ⟨a, ha, by rw [← absScalar_eq_abs]; exact h⟩
  · intro hnil
    rw [hnil]
    rfl
  · intro hplus hlen
    have hp : p = List.zipWith (fun a b => a + b) x (g.map (fun a => -a)) := by
      rw [hplus] at hP
      unfold defaultPlus at hP
      exact (Option.some.inj hP).symm
    have hv : vsub x p = g := by
      rw [hp]
      exact vsub_defaultPlus x g hlen
    refine ⟨hv, ?_, ?_⟩
    · rw [hres, hv]
    · rw [hres, hv]

/-- Witness for C15: `x²` at `x = 10` has cost 100 and gradient 20; with the default `Plus`
the projected step is -10, so the metrics are 400 and 20. -/
theorem Evaluate_metrics_witness :
    Evaluate squareProblem 0 [10] (zeroState 1) "" =
        (true,
          { x := [0], cost := 100, gradient := [20]
            gradient_squared_norm := 400, gradient_max_norm := 20 },
          "") ∧
      vsub [10] [-10] = [20] :=
  ⟨(Evaluate_metrics squareProblem 0 [10] (zeroState 1) "" 100 [20] [-10]
      (by decide) (by decide)).1.trans (by decide),
    ((Evaluate_metrics squareProblem 0 [10] (zeroState 1) "" 100 [20] [-10]
      (by decide) (by decide)).2.2.2.2 rfl (by decide)).1⟩

/-- C16 as stated fails: for an objective whose evaluation succeeds but whose `Plus` reports
failure, the helper reports failure although `problem.Evaluate` succeeded. -/
theorem Evaluate_fails_when_Plus_fails :
    (stuckPlusProblem.Evaluate 0 [10] (zeroState 1).cost (zeroState 1).gradient).1 = true ∧
      (Evaluate stuckPlusProblem 0 [10] (zeroState 1) "").1 = false := by
  decide

/-- C16 amended. The helper reports failure if and only if `problem.Evaluate` fails or
`problem.Plus(x, -gradient)` fails. When the objective evaluation fails the message is
"Gradient evaluation failed.", when `Plus` fails it names the `Plus` step, and in both cases
`gradient_squared_norm` and `gradient_max_norm` are left unchanged; on success the message
is left unchanged. -/
theorem Evaluate_failure_iff (problem : GradientProblem) (k : Nat) (x : Vector)
    (state : State) (message : String) :
    ((Evaluate problem k x state message).1 = false ↔
        ((problem.Evaluate k x state.cost state.gradient).1 = false ∨
          problem.Plus x
            ((problem.Evaluate k x state.cost state.gradient).2.2.map (fun a => -a)) = none)) ∧
      ((problem.Evaluate k x state.cost state.gradient).1 = false →
        (Evaluate problem k x state message).2.2 = "Gradient evaluation failed.") ∧
      ((problem.Evaluate k x state.cost state.gradient).1 = true →
        problem.Plus x
            ((problem.Evaluate k x state.cost state.gradient).2.2.map (fun a => -a)) = none →
        (Evaluate problem k x state message).2.2 =
          "projected_gradient_step = Plus(x, -gradient) failed.") ∧
      ((Evaluate problem k x state message).1 = false →
        (Evaluate problem k x state message).2.1.gradient_squared_norm =
            state.gradient_squared_norm ∧
          (Evaluate problem k x state message).2.1.gradient_max_norm =
            state.gradient_max_norm) ∧
      ((Evaluate problem k x state message).1 = true →
        (Evaluate problem k x state message).2.2 = message) := by
  unfold Evaluate
  rcases hE : problem.Evaluate k x state.cost state.gradient with ⟨b, c, g⟩
  cases b with
  | false => simp
  | true =>
    cases hP : problem.Plus x (g.map (fun a => -a)) with
    | none => simp [hP]
    | some p => simp [hP]

/-- C18 (the termination predicate). `check_for_termination_` returns true with
`USER_SUCCESS` iff the global-best cost is below `minimum_cost`; otherwise true with
`NO_CONVERGENCE` iff `num_iterations >= max_iterations`; otherwise true with `CONVERGENCE`
iff `num_stagnant_iterations >= max_stagnant_iterations`; otherwise it returns false and
leaves message and kind as they were. A kind it writes is never `FAILURE` or
`USER_FAILURE`, and the check leaves the orchestrator object (its states and counters)
unchanged. -/
theorem check_for_termination_spec (self : Basinhopping) (options : Options)
    (message : String) (kind : TerminationType) (ls : LocalSummary) (r : Run) :
    (check_for_termination_ self options message kind =
          (true, "Prescribed minimum cost reached.", TerminationType.USER_SUCCESS) ↔
        self.global_minimum_state.cost < options.minimum_cost) ∧
      (check_for_termination_ self options message kind =
          (true, "Maximum number of iterations reached.", TerminationType.NO_CONVERGENCE) ↔
        (¬ self.global_minimum_state.cost < options.minimum_cost ∧
          self.num_iterations ≥ options.max_iterations)) ∧
      (check_for_termination_ self options message kind =
          (true, "Maximum number of stagnant iterations reached.",
            TerminationType.CONVERGENCE) ↔
        (¬ self.global_minimum_state.cost < options.minimum_cost ∧
          ¬ self.num_iterations ≥ options.max_iterations ∧
          self.num_stagnant_iterations ≥ options.max_stagnant_iterations)) ∧
      ((check_for_termination_ self options message kind).1 = false ↔
        (¬ self.global_minimum_state.cost < options.minimum_cost ∧
          ¬ self.num_iterations ≥ options.max_iterations ∧
          ¬ self.num_stagnant_iterations ≥ options.max_stagnant_iterations)) ∧
      ((check_for_termination_ self options message kind).1 = false →
        check_for_termination_ self options message kind = (false, message, kind)) ∧
      ((check_for_termination_ self options message kind).1 = true →
        (check_for_termination_ self options message kind).2.2 =
            TerminationType.USER_SUCCESS ∨
          (check_for_termination_ self options message kind).2.2 =
            TerminationType.NO_CONVERGENCE ∨
          (check_for_termination_ self options message kind).2.2 =
            TerminationType.CONVERGENCE) ∧
      (finish options ls r).1.self = r.self := by
  refine ⟨?_, ?_, ?_, ?_, ?_, ?_, finish_self options ls r⟩ <;>
    unfold check_for_termination_ <;>
    split_ifs <;> simp_all

/-! ## The acceptance step of the loop body -/

/-- The orchestrator object after a loop body, in terms of `accepted` and `replaced`. -/
theorem loopBody_self (c : Collaborators) (options : Options) (problem : GradientProblem)
    (r : Run) :
    (loopBody c options problem r).1.self.current_state =
        (if accepted c options problem r then
          (loopBody c options problem r).1.self.candidate_state
        else r.self.current_state) ∧
      (loopBody c options problem r).1.self.global_minimum_state =
        (if replaced c options problem r then
          (loopBody c options problem r).1.self.candidate_state
        else r.self.global_minimum_state) ∧
      (loopBody c options problem r).1.new_global_min =
        (if accepted c options problem r then replaced c options problem r
        else r.new_global_min) ∧
      (loopBody c options problem r).1.self.num_stagnant_iterations =
        (if (loopBody c options problem r).1.new_global_min then 0
        else r.self.num_stagnant_iterations + 1) := by
  have hupd : (loopBody c options problem r).1.self.global_minimum_state =
        (if accepted c options problem r then
          r.self.global_minimum_state.update
            (if accepted c options problem r then
              (loopBody c options problem r).1.self.candidate_state
            else r.self.current_state)
        else (r.self.global_minimum_state, r.new_global_min)).1 ∧
      (loopBody c options problem r).1.new_global_min =
        (if accepted c options problem r then
          r.self.global_minimum_state.update
            (if accepted c options problem r then
              (loopBody c options problem r).1.self.candidate_state
            else r.self.current_state)
        else (r.self.global_minimum_state, r.new_global_min)).2 := ⟨rfl, rfl⟩
  refine ⟨rfl, ?_, ?_, rfl⟩
  · rw [hupd.1]
    unfold replaced State.update
    cases accepted c options problem r with
    | false => rfl
    | true =>
      simp only [if_true, Bool.true_and, decide_eq_true_eq]
      by_cases hlt : candidateCost c options problem r < r.self.global_minimum_state.cost
      · rw [if_pos hlt]
        have hlt2 : (loopBody c options problem r).1.self.candidate_state.cost <
            r.self.global_minimum_state.cost := hlt
        rw [if_pos hlt2]
      · rw [if_neg hlt]
        have hlt2 : ¬ (loopBody c options problem r).1.self.candidate_state.cost <
            r.self.global_minimum_state.cost := hlt
        rw [if_neg hlt2]
  · rw [hupd.2]
    unfold replaced State.update
    cases accepted c options problem r with
    | false => rfl
    | true =>
      simp only [if_true, Bool.true_and]
      by_cases hlt : candidateCost c options problem r < r.self.global_minimum_state.cost
      · have hlt2 : (loopBody c options problem r).1.self.candidate_state.cost <
            r.self.global_minimum_state.cost := hlt
        rw [if_pos hlt2]
        exact (decide_eq_true hlt).symm
      · have hlt2 : ¬ (loopBody c options problem r).1.self.candidate_state.cost <
            r.self.global_minimum_state.cost := hlt
        rw [if_neg hlt2]
        exact (decide_eq_false hlt).symm

/-- C14 (acceptance correctness). With the spec's Metropolis test, whatever the random
source `draw`: a candidate whose cost is not above the current cost is accepted, and after
the iteration `current_state` equals `candidate_state`. With any acceptance test: when the
candidate is not accepted, the iteration leaves `current_state` and `global_minimum_state`
unchanged. -/
theorem acceptance_correctness (c : Collaborators) (draw : Nat → Scalar → Scalar → Bool)
    (options : Options) (problem : GradientProblem) (r : Run) :
    (∀ (k : Nat) (candidate_cost current_cost : Scalar), candidate_cost ≤ current_cost →
        metropolis draw k candidate_cost current_cost = true) ∧
      (candidateCost (withMetropolis c draw) options problem r ≤ r.self.current_state.cost →
        accepted (withMetropolis c draw) options problem r = true ∧
          (iteration (withMetropolis c draw) options problem r).1.self.current_state =
            (iteration (withMetropolis c draw) options problem r).1.self.candidate_state) ∧
      (accepted c options problem r = true →
        (iteration c options problem r).1.self.current_state =
          (iteration c options problem r).1.self.candidate_state) ∧
      (accepted c options problem r = false →
        (iteration c options problem r).1.self.current_state = r.self.current_state ∧
          (iteration c options problem r).1.self.global_minimum_state =
            r.self.global_minimum_state) := by
  have hacc : ∀ (k : Nat) (a b : Scalar), a ≤ b → metropolis draw k a b = true := by
    intro k a b hab
    unfold metropolis
    rw [if_pos hab]
  refine ⟨hacc, ?_, ?_, ?_⟩
  · intro hle
    have ha : accepted (withMetropolis c draw) options problem r = true := by
      unfold accepted
      exact hacc _ _ _ hle
    refine ⟨ha, ?_⟩
    unfold iteration
    rw [finish_self, (loopBody_self _ options problem r).1, if_pos ha]
  · intro ha
    unfold iteration
    rw [finish_self, (loopBody_self _ options problem r).1, if_pos ha]
  · intro ha
    have hr : replaced c options problem r = false := by
      unfold replaced
      rw [ha]
      rfl
    unfold iteration
    rw [finish_self, (loopBody_self c options problem r).1,
      (loopBody_self c options problem r).2.1, ha, hr]
    exact ⟨rfl, rfl⟩

/-- Witness for C14: from the initial run of scenario A, the candidate 3 is moved to 0 by the
ideal local minimizer, its cost 0 is not above the current cost 0, and it is accepted by the
Metropolis test even when the random source rejects everything. -/
theorem acceptance_correctness_witness :
    candidateCost (withMetropolis idealCollaborators (fun _ _ _ => false)) scenarioA
        squareProblem
        (initialRun idealCollaborators (freshBasinhopping 1) squareProblem [10]
          defaultSummary) = 0 ∧
      accepted (withMetropolis idealCollaborators (fun _ _ _ => false)) scenarioA
        squareProblem
        (initialRun idealCollaborators (freshBasinhopping 1) squareProblem [10]
          defaultSummary) = true :=
  ⟨by decide,
    ((acceptance_correctness idealCollaborators (fun _ _ _ => false) scenarioA squareProblem
      (initialRun idealCollaborators (freshBasinhopping 1) squareProblem [10]
        defaultSummary)).2.1 (by decide)).1⟩

/-- C13 (state persisting across calls), evaluated on two runs the claim equates. The same
call (`x²` from 10, a local minimizer that reports `FAILURE`) is made on an orchestrator
object with zero-initialised states and on the object left behind by an earlier run on
`cost(x) = x` whose global best had cost 9. Both runs end at line 212 with kind `FAILURE`,
but `summary.final_cost` is 0 on the first object and 9, the global-best cost of the earlier
run, on the second. -/
theorem final_cost_leaks_from_earlier_run :
    (Solve idleCollaborators 4 (freshBasinhopping 1) stagnationOptions linearProblem [10]
          defaultSummary).map
        (fun earlier => earlier.self.global_minimum_state.cost) = some 9 ∧
      (Solve brokenCollaborators 5 (freshBasinhopping 1) scenarioA squareProblem [10]
          defaultSummary).map
        (fun r => (r.summary.termination_type, r.summary.final_cost)) =
        some (TerminationType.FAILURE, 0) ∧
      (Solve idleCollaborators 4 (freshBasinhopping 1) stagnationOptions linearProblem [10]
          defaultSummary).bind
        (fun earlier =>
          (Solve brokenCollaborators 5 earlier.self scenarioA squareProblem [10]
              defaultSummary).map
            (fun r => (r.summary.termination_type, r.summary.final_cost))) =
        some (TerminationType.FAILURE, 9) := by
  decide

/-! ## The bounded objective wrapper -/

theorem finish_snd (options : Options) (ls : LocalSummary) (r : Run) :
    (finish options ls r).2 = fires options r.self := by
  unfold finish check_for_termination_ fires
  split_ifs with h1 h2 h3 <;> simp_all [IsSolutionUsable, prepare_final_summary_]

/-- The termination check leaves the flag `new_global_min` and the counts of collaborator
calls and loop iterations as they are. -/
theorem finish_frame (options : Options) (ls : LocalSummary) (r : Run) :
    (finish options ls r).1.new_global_min = r.new_global_min ∧
      (finish options ls r).1.calls.loop_iterations = r.calls.loop_iterations ∧
      (finish options ls r).1.calls.evaluations = r.calls.evaluations ∧
      (finish options ls r).1.calls.local_minimizations = r.calls.local_minimizations ∧
      (finish options ls r).1.calls.steps = r.calls.steps ∧
      (finish options ls r).1.calls.acceptance_tests = r.calls.acceptance_tests := by
  cases hb : (finish options ls r).2 with
  | false =>
    rw [(finish_false options ls r hb).1]
    exact ⟨rfl, rfl, rfl, rfl, rfl, rfl⟩
  | true =>
    obtain ⟨-, h2, -, h4, -⟩ := finish_true options ls r hb
    rw [h2, h4]
    exact ⟨rfl, rfl, rfl, rfl, rfl, rfl⟩

theorem iteration_self (c : Collaborators) (options : Options) (problem : GradientProblem)
    (r : Run) :
    (iteration c options problem r).1.self = (loopBody c options problem r).1.self := by
  unfold iteration
  exact finish_self _ _ _

theorem iteration_snd (c : Collaborators) (options : Options) (problem : GradientProblem)
    (r : Run) :
    (iteration c options problem r).2 =
      fires options (stateAfter c options problem 1 r).self := by
  show (iteration c options problem r).2 = fires options (iteration c options problem r).1.self
  rw [iteration_self]
  unfold iteration
  exact finish_snd _ _ _

theorem stateAfter_succ_left (c : Collaborators) (options : Options)
    (problem : GradientProblem) (r : Run) :
    ∀ k : Nat, stateAfter c options problem (k + 1) r =
      stateAfter c options problem k (iteration c options problem r).1 := by
  intro k
  induction k with
  | zero => rfl
  | succ n ih =>
    show (iteration c options problem (stateAfter c options problem (n + 1) r)).1 =
      (iteration c options problem
        (stateAfter c options problem n (iteration c options problem r).1)).1
    rw [ih]

/-- If the iterations started from the first `k` runs of the trajectory do not return and
the next one does, the loop returns the run after `k + 1` iterations. -/
theorem mainLoop_first_fire (c : Collaborators) (options : Options)
    (problem : GradientProblem) :
    ∀ (k fuel : Nat) (r : Run), k < fuel →
      (∀ j, j < k → (iteration c options problem (stateAfter c options problem j r)).2 = false) →
      (iteration c options problem (stateAfter c options problem k r)).2 = true →
      mainLoop c options problem fuel r = some (stateAfter c options problem (k + 1) r) := by
  intro k
  induction k with
  | zero =>
    intro fuel r hk _ hfire
    cases fuel with
    | zero => omega
    | succ f =>
      unfold mainLoop
      have hfire2 : (iteration c options problem r).2 = true := hfire
      cases hit : iteration c options problem r with
      | mk r1 b =>
        rw [hit] at hfire2
        simp only at hfire2
        rw [hfire2]
        show some r1 = some (iteration c options problem r).1
        rw [hit]
  | succ n ih =>
    intro fuel r hk hquiet hfire
    cases fuel with
    | zero => omega
    | succ f =>
      unfold mainLoop
      have h0 : (iteration c options problem r).2 = false := hquiet 0 (Nat.succ_pos n)
      cases hit : iteration c options problem r with
      | mk r1 b =>
        rw [hit] at h0
        simp only at h0
        rw [h0]
        simp only
        have hr1 : r1 = (iteration c options problem r).1 := by rw [hit]
        rw [stateAfter_succ_left, ← hr1]
        apply ih f r1 (by omega)
        · intro j hj
          have := hquiet (j + 1) (by omega)
          rw [stateAfter_succ_left, ← hr1] at this
          exact this
        · rw [stateAfter_succ_left, ← hr1] at hfire
          exact hfire

/-- Every run the loop returns is the run after `k + 1` iterations, for the first `k` whose
iteration returns. -/
theorem mainLoop_some_first_fire (c : Collaborators) (options : Options)
    (problem : GradientProblem) :
    ∀ (fuel : Nat) (r q : Run), mainLoop c options problem fuel r = some q →
      ∃ k, k < fuel ∧
        (∀ j, j < k →
          (iteration c options problem (stateAfter c options problem j r)).2 = false) ∧
        (iteration c options problem (stateAfter c options problem k r)).2 = true ∧
        q = stateAfter c options problem (k + 1) r := by
  intro fuel
  induction fuel with
  | zero => intro r q h; simp [mainLoop] at h
  | succ f ih =>
    intro r q h
    unfold mainLoop at h
    cases hit : iteration c options problem r with
    | mk r1 b =>
      rw [hit] at h
      have hr1 : r1 = (iteration c options problem r).1 := by rw [hit]
      cases b with
      | true =>
        simp only [Option.some.injEq] at h
        refine ⟨0, Nat.succ_pos f, fun j hj => absurd hj (Nat.not_lt_zero j), ?_, ?_⟩
        · show (iteration c options problem r).2 = true
          rw [hit]
        · show q = (iteration c options problem r).1
          rw [← hr1, h]
      | false =>
        simp only at h
        obtain ⟨k, hk, hquiet, hfire, hq⟩ := ih r1 q h
        refine ⟨k + 1, by omega, ?_, ?_, ?_⟩
        · intro j hj
          cases j with
          | zero =>
            show (iteration c options problem r).2 = false
            rw [hit]
          | succ i =>
            rw [stateAfter_succ_left, ← hr1]
            exact hquiet i (by omega)
        · rw [stateAfter_succ_left, ← hr1]
          exact hfire
        · rw [stateAfter_succ_left, ← hr1]
          exact hq

/-- Along the trajectory the iteration counter and the count of loop iterations grow by one
per iteration, and the stagnation counter by at most one. -/
theorem stateAfter_frame (c : Collaborators) (options : Options) (problem : GradientProblem)
    (r : Run) :
    ∀ j : Nat,
      (stateAfter c options problem j r).self.num_iterations = r.self.num_iterations + j ∧
        (stateAfter c options problem j r).calls.loop_iterations =
          r.calls.loop_iterations + j ∧
        (stateAfter c options problem j r).self.num_stagnant_iterations ≤
          r.self.num_stagnant_iterations + j := by
  intro j
  induction j with
  | zero => exact ⟨rfl, rfl, le_refl _⟩
  | succ n ih =>
    obtain ⟨h1, h2, h3⟩ := ih
    have hself := iteration_self c options problem (stateAfter c options problem n r)
    have hstag := (loopBody_self c options problem (stateAfter c options problem n r)).2.2.2
    refine ⟨?_, ?_, ?_⟩
    · show (iteration c options problem (stateAfter c options problem n r)).1.self.num_iterations
        = r.self.num_iterations + (n + 1)
      rw [hself, loopBody_num_iterations, h1]
      omega
    · show (iteration c options problem
          (stateAfter c options problem n r)).1.calls.loop_iterations =
        r.calls.loop_iterations + (n + 1)
      unfold iteration
      rw [(finish_frame _ _ _).2.1]
      show (stateAfter c options problem n r).calls.loop_iterations + 1 = _
      rw [h2]
      omega
    · show (iteration c options problem
          (stateAfter c options problem n r)).1.self.num_stagnant_iterations ≤
        r.self.num_stagnant_iterations + (n + 1)
      rw [hself, hstag]
      split_ifs <;> omega

/-- The summary and buffer a termination check leaves when it fires. -/
theorem fired_summary (options : Options) (ls : LocalSummary) (r : Run)
    (h : fires options r.self = true) :
    (finish options ls r).1.self = r.self ∧
      (finish options ls r).1.summary.termination_type =
        firedKind (finish options ls r).1.self options ∧
      (finish options ls r).1.summary.final_cost =
        (finish options ls r).1.self.global_minimum_state.cost ∧
      (finish options ls r).1.summary.num_iterations =
        (finish options ls r).1.self.num_iterations ∧
      (finish options ls r).1.parameters =
        (finish options ls r).1.self.global_minimum_state.x ∧
      (finish options ls r).1.calls.loop_iterations = r.calls.loop_iterations := by
  have hb : (finish options ls r).2 = true := by rw [finish_snd]; exact h
  obtain ⟨h1, -, h3, -, h5, h6, h7, -⟩ := finish_true options ls r hb
  rw [h1]
  exact ⟨rfl, h5, h6, h7, h3, (finish_frame options ls r).2.1⟩

theorem returnsAfter_zero (c : Collaborators) (options : Options) (problem : GradientProblem)
    (ls : LocalSummary) (r0 : Run) (h : fires options r0.self = true) :
    ReturnsAfter c options problem r0 0 (finish options ls r0).1 := by
  obtain ⟨h1, h2, h3, h4, h5, h6⟩ := fired_summary options ls r0 h
  exact
    { quiet := fun j hj => absurd hj (Nat.not_lt_zero j)
      fired := h
      self_eq := h1
      kind := h2
      final_cost := h3
      num_iterations := h4
      parameters := h5
      loop_iterations := h6 }

theorem returnsAfter_succ (c : Collaborators) (options : Options) (problem : GradientProblem)
    (r0 : Run) (k : Nat)
    (hquiet : ∀ j, j < k + 1 → fires options (stateAfter c options problem j r0).self = false)
    (hfired : fires options (stateAfter c options problem (k + 1) r0).self = true) :
    ReturnsAfter c options problem r0 (k + 1) (stateAfter c options problem (k + 1) r0) := by
  have hf : fires options
      (loopBody c options problem (stateAfter c options problem k r0)).1.self = true := by
    rw [← iteration_self]
    exact hfired
  obtain ⟨-, h2, h3, h4, h5, -⟩ := fired_summary options
    (loopBody c options problem (stateAfter c options problem k r0)).2
    (loopBody c options problem (stateAfter c options problem k r0)).1 hf
  exact
    { quiet := hquiet
      fired := hfired
      self_eq := rfl
      kind := h2
      final_cost := h3
      num_iterations := h4
      parameters := h5
      loop_iterations := (stateAfter_frame c options problem r0 (k + 1)).2.1 }

/-- Existence: if, along the trajectory from the initial run, the termination check is quiet
before `K` iterations and fires after `K`, then `Solve` with fuel at least `K` returns the
run described by `ReturnsAfter`. -/
theorem Solve_returns_after (c : Collaborators) (fuel : Nat) (self : Basinhopping)
    (options : Options) (problem : GradientProblem) (parameters : Vector)
    (global_summary : Summary) (hnf : ¬ initialMinimizationFailed c parameters) (K : Nat)
    (hquiet : ∀ j, j < K → fires options (stateAfter c options problem j
      (initialRun c self problem parameters global_summary)).self = false)
    (hfired : fires options (stateAfter c options problem K
      (initialRun c self problem parameters global_summary)).self = true)
    (hfuel : K ≤ fuel) :
    ∃ q, Solve c fuel self options problem parameters global_summary = some q ∧
      ReturnsAfter c options problem
        (initialRun c self problem parameters global_summary) K q := by
  rw [Solve_eq, if_neg hnf]
  cases K with
  | zero =>
    have hb : (finish options (initialMinimization c parameters).2
        (initialRun c self problem parameters global_summary)).2 = true := by
      rw [finish_snd]; exact hfired
    refine ⟨(finish options (initialMinimization c parameters).2
        (initialRun c self problem parameters global_summary)).1, ?_,
      returnsAfter_zero c options problem _ _ hfired⟩
    cases hfin : finish options (initialMinimization c parameters).2
        (initialRun c self problem parameters global_summary) with
    | mk r1 b =>
      rw [hfin] at hb
      simp only at hb
      rw [hb]
  | succ k =>
    have hb : (finish options (initialMinimization c parameters).2
        (initialRun c self problem parameters global_summary)).2 = false := by
      rw [finish_snd]; exact hquiet 0 (Nat.succ_pos k)
    have hr := (finish_false _ _ _ hb).1
    refine ⟨stateAfter c options problem (k + 1)
        (initialRun c self problem parameters global_summary), ?_,
      returnsAfter_succ c options problem _ k hquiet hfired⟩
    cases hfin : finish options (initialMinimization c parameters).2
        (initialRun c self problem parameters global_summary) with
    | mk r1 b =>
      rw [hfin] at hb hr
      simp only at hb hr
      rw [hb, hr]
      simp only
      apply mainLoop_first_fire c options problem k fuel _ (by omega)
      · intro j hj
        rw [iteration_snd]
        exact hquiet (j + 1) (by omega)
      · rw [iteration_snd]
        exact hfired

/-- Converse: every run `Solve` returns after a non-failing initial local minimization is
described by `ReturnsAfter` for some number `K` of loop iterations. -/
theorem Solve_some_returns_after (c : Collaborators) (fuel : Nat) (self : Basinhopping)
    (options : Options) (problem : GradientProblem) (parameters : Vector)
    (global_summary : Summary) (hnf : ¬ initialMinimizationFailed c parameters) (q : Run)
    (hS : Solve c fuel self options problem parameters global_summary = some q) :
    ∃ K, ReturnsAfter c options problem
      (initialRun c self problem parameters global_summary) K q := by
  rw [Solve_eq, if_neg hnf] at hS
  cases hfin : finish options (initialMinimization c parameters).2
      (initialRun c self problem parameters global_summary) with
  | mk r1 b =>
    rw [hfin] at hS
    have hsnd := finish_snd options (initialMinimization c parameters).2
      (initialRun c self problem parameters global_summary)
    rw [hfin] at hsnd
    simp only at hsnd
    cases b with
    | true =>
      simp only [Option.some.injEq] at hS
      refine ⟨0, ?_⟩
      have := returnsAfter_zero c options problem (initialMinimization c parameters).2
        (initialRun c self problem parameters global_summary) hsnd.symm
      rw [hfin] at this
      rw [← hS]
      exact this
    | false =>
      simp only at hS
      have hb : (finish options (initialMinimization c parameters).2
          (initialRun c self problem parameters global_summary)).2 = false := by rw [hfin]
      have hr := (finish_false _ _ _ hb).1
      rw [hfin] at hr
      simp only at hr
      rw [hr] at hS
      obtain ⟨k, -, hquiet, hfire, hq⟩ := mainLoop_some_first_fire c options problem fuel _ q hS
      refine ⟨k + 1, ?_⟩
      rw [hq]
      apply returnsAfter_succ
      · intro j hj
        cases j with
        | zero => exact hsnd.symm
        | succ i =>
          have := hquiet i (by omega)
          rw [iteration_snd] at this
          exact this
      · rw [iteration_snd] at hfire
        exact hfire

theorem fires_eq_false_iff (options : Options) (b : Basinhopping) :
    fires options b = false ↔
      (options.minimum_cost ≤ b.global_minimum_state.cost ∧
        b.num_iterations < options.max_iterations ∧
        b.num_stagnant_iterations < options.max_stagnant_iterations) := by
  unfold fires
  simp only [decide_eq_false_iff_not, not_or, not_lt, ge_iff_le, not_le]

/-- The orchestrator object of the initial run after a successful second evaluation
(lines 200-203). -/
theorem initialRun_self_of_success (c : Collaborators) (self : Basinhopping)
    (problem : GradientProblem) (parameters : Vector) (global_summary : Summary)
    (heval : (secondEvaluation c problem parameters global_summary).1 = true) :
    (initialRun c self problem parameters global_summary).self =
      { current_state := (secondEvaluation c problem parameters global_summary).2.1
        candidate_state := (secondEvaluation c problem parameters global_summary).2.1
        global_minimum_state := (secondEvaluation c problem parameters global_summary).2.1
        num_iterations := 1
        num_stagnant_iterations := 0 } := by
  unfold initialRun
  rw [if_pos heval]

theorem not_initialMinimizationFailed (c : Collaborators) (parameters : Vector)
    (hnf : (c.local_minimizer 0 parameters).2.termination_type ≠ TerminationType.FAILURE ∧
      (c.local_minimizer 0 parameters).2.termination_type ≠ TerminationType.USER_FAILURE) :
    ¬ initialMinimizationFailed c parameters := by
  unfold initialMinimizationFailed initialMinimization
  tauto

/-- C11 (scenario A generalised). If the initial local minimization does not fail, the
evaluation at the locally minimised start point succeeds, the global-best cost observed at
each of the termination checks within the iteration budget is not below `minimum_cost`,
`max_iterations >= 1` and `max_stagnant_iterations > max_iterations - 1`, then `Solve`
(with fuel covering the budget) returns `NO_CONVERGENCE` with
`summary.num_iterations = max_iterations`, after `max_iterations - 1` loop iterations, and
`summary.final_cost` is the global-best cost. Success of the evaluations inside the loop is
not needed. -/
theorem iteration_budget_exhausted (c : Collaborators) (fuel : Nat) (self : Basinhopping)
    (options : Options) (problem : GradientProblem) (parameters : Vector)
    (global_summary : Summary)
    (hnf : (c.local_minimizer 0 parameters).2.termination_type ≠ TerminationType.FAILURE ∧
      (c.local_minimizer 0 parameters).2.termination_type ≠ TerminationType.USER_FAILURE)
    (heval : (secondEvaluation c problem parameters global_summary).1 = true)
    (hcost : ∀ j, j < options.max_iterations →
      options.minimum_cost ≤ (stateAfter c options problem j
        (initialRun c self problem parameters global_summary)).self.global_minimum_state.cost)
    (hmax : 1 ≤ options.max_iterations)
    (hstag : options.max_iterations - 1 < options.max_stagnant_iterations)
    (hfuel : options.max_iterations ≤ fuel) :
    ∃ q, Solve c fuel self options problem parameters global_summary = some q ∧
      q.summary.termination_type = TerminationType.NO_CONVERGENCE ∧
      q.summary.num_iterations = options.max_iterations ∧
      q.summary.final_cost = q.self.global_minimum_state.cost ∧
      q.calls.loop_iterations = options.max_iterations - 1 := by
  have hself := initialRun_self_of_success c self problem parameters global_summary heval
  have hframe := stateAfter_frame c options problem
    (initialRun c self problem parameters global_summary)
  have hloops := (initialRun_frame c self problem parameters global_summary).2.1
  obtain ⟨q, hS, hq⟩ := Solve_returns_after c fuel self options problem parameters
    global_summary (not_initialMinimizationFailed c parameters hnf)
    (options.max_iterations - 1)
    (by
      intro j hj
      rw [fires_eq_false_iff]
      obtain ⟨h1, -, h3⟩ := hframe j
      rw [hself] at h1 h3
      simp only at h1 h3
      exact ⟨hcost j (by omega), by omega, by omega⟩)
    (by
      obtain ⟨h1, -, -⟩ := hframe (options.max_iterations - 1)
      rw [hself] at h1
      simp only at h1
      unfold fires
      simp only [decide_eq_true_eq]
      right; left
      omega)
    (by omega)
  have hnum : q.self.num_iterations = options.max_iterations := by
    rw [hq.self_eq, (hframe (options.max_iterations - 1)).1, hself]
    simp only
    omega
  refine ⟨q, hS, ?_, ?_, hq.final_cost, ?_⟩
  · rw [hq.kind]
    unfold firedKind
    have hc : ¬ q.self.global_minimum_state.cost < options.minimum_cost := by
      rw [hq.self_eq]
      exact not_lt.mpr (hcost (options.max_iterations - 1) (by omega))
    rw [if_neg hc, if_pos (by omega)]
  · rw [hq.num_iterations, hnum]
  · rw [hq.loop_iterations, hloops]
    simp [Calls.zero]

/-- Witness for C11: scenario A of the spec (`cost = x²`, start 10, a local minimizer that
always reaches 0, `minimum_cost = -1`, `max_iterations = 5`). -/
theorem iteration_budget_exhausted_witness :
    ∃ q, Solve idealCollaborators 5 (freshBasinhopping 1) scenarioA squareProblem [10]
        defaultSummary = some q ∧
      q.summary.termination_type = TerminationType.NO_CONVERGENCE ∧
      q.summary.num_iterations = 5 ∧
      q.summary.final_cost = q.self.global_minimum_state.cost ∧
      q.calls.loop_iterations = 4 :=
  iteration_budget_exhausted idealCollaborators 5 (freshBasinhopping 1) scenarioA
    squareProblem [10] defaultSummary ⟨by decide, by decide⟩ (by decide) (by decide)
    (by decide) (by decide) (by decide)

/-- While no iteration replaces the global best, the flag `new_global_min` stays false, the
stagnation counter counts the iterations and the global best stays where it was. -/
theorem stateAfter_stagnant (c : Collaborators) (options : Options)
    (problem : GradientProblem) (r : Run) (n : Nat) (hflag : r.new_global_min = false)
    (hkeep : ∀ j, j < n → replaced c options problem (stateAfter c options problem j r) = false) :
    ∀ j, j ≤ n →
      (stateAfter c options problem j r).new_global_min = false ∧
        (stateAfter c options problem j r).self.num_stagnant_iterations =
          r.self.num_stagnant_iterations + j ∧
        (stateAfter c options problem j r).self.global_minimum_state =
          r.self.global_minimum_state := by
  intro j
  induction j with
  | zero => intro _; exact ⟨hflag, rfl, rfl⟩
  | succ i ih =>
    intro hi
    obtain ⟨h1, h2, h3⟩ := ih (by omega)
    have hrep := hkeep i (by omega)
    obtain ⟨-, hg, hf, hs⟩ := loopBody_self c options problem (stateAfter c options problem i r)
    have hflag2 : (loopBody c options problem
        (stateAfter c options problem i r)).1.new_global_min = false := by
      rw [hf, hrep, h1]
      split_ifs <;> rfl
    refine ⟨?_, ?_, ?_⟩
    · show (iteration c options problem (stateAfter c options problem i r)).1.new_global_min
        = false
      unfold iteration
      rw [(finish_frame _ _ _).1]
      exact hflag2
    · show (iteration c options problem
          (stateAfter c options problem i r)).1.self.num_stagnant_iterations =
        r.self.num_stagnant_iterations + (i + 1)
      rw [iteration_self, hs, hflag2, h2]
      simp only [Bool.false_eq_true, if_false]
      omega
    · show (iteration c options problem
          (stateAfter c options problem i r)).1.self.global_minimum_state =
        r.self.global_minimum_state
      rw [iteration_self, hg, hrep, h3]
      simp only [Bool.false_eq_true, if_false]

/-- C12 (scenario D generalised). If the initial local minimization does not fail, the
evaluation at the locally minimised start point succeeds, none of the first
`max_stagnant_iterations` loop iterations replaces the global best, the cost of the start
point is not below `minimum_cost` and `max_iterations > max_stagnant_iterations + 1`, then
at every termination check of the run the stagnation counter is `num_iterations - 1`, and
`Solve` (with fuel covering the budget) returns `CONVERGENCE` at the first check where that
counter reaches `max_stagnant_iterations`: after `max_stagnant_iterations` loop iterations,
with `summary.num_iterations = max_stagnant_iterations + 1`. Success of the evaluations
inside the loop is not needed. -/
theorem stagnation_budget_exhausted (c : Collaborators) (fuel : Nat) (self : Basinhopping)
    (options : Options) (problem : GradientProblem) (parameters : Vector)
    (global_summary : Summary)
    (hnf : (c.local_minimizer 0 parameters).2.termination_type ≠ TerminationType.FAILURE ∧
      (c.local_minimizer 0 parameters).2.termination_type ≠ TerminationType.USER_FAILURE)
    (heval : (secondEvaluation c problem parameters global_summary).1 = true)
    (hkeep : ∀ j, j < options.max_stagnant_iterations →
      replaced c options problem (stateAfter c options problem j
        (initialRun c self problem parameters global_summary)) = false)
    (hcost : options.minimum_cost ≤
      (secondEvaluation c problem parameters global_summary).2.1.cost)
    (hmax : options.max_stagnant_iterations + 1 < options.max_iterations)
    (hfuel : options.max_iterations ≤ fuel) :
    ∃ q, Solve c fuel self options problem parameters global_summary = some q ∧
      q.summary.termination_type = TerminationType.CONVERGENCE ∧
      q.summary.num_iterations = options.max_stagnant_iterations + 1 ∧
      q.calls.loop_iterations = options.max_stagnant_iterations ∧
      q.self.num_stagnant_iterations = options.max_stagnant_iterations ∧
      (∀ j, j ≤ options.max_stagnant_iterations →
        (stateAfter c options problem j
            (initialRun c self problem parameters global_summary)).self.num_stagnant_iterations
          = (stateAfter c options problem j
            (initialRun c self problem parameters global_summary)).self.num_iterations - 1) := by
  have hself := initialRun_self_of_success c self problem parameters global_summary heval
  have hframe := stateAfter_frame c options problem
    (initialRun c self problem parameters global_summary)
  have hloops := (initialRun_frame c self problem parameters global_summary).2.1
  have hstag := stateAfter_stagnant c options problem
    (initialRun c self problem parameters global_summary) options.max_stagnant_iterations
    (initialRun_frame c self problem parameters global_summary).2.2 hkeep
  have hfacts : ∀ j, j ≤ options.max_stagnant_iterations →
      (stateAfter c options problem j
          (initialRun c self problem parameters global_summary)).self.num_iterations = 1 + j ∧
        (stateAfter c options problem j
          (initialRun c self problem parameters global_summary)).self.num_stagnant_iterations
            = j ∧
        (stateAfter c options problem j
          (initialRun c self problem parameters global_summary)).self.global_minimum_state.cost
            = (secondEvaluation c problem parameters global_summary).2.1.cost := by
    intro j hj
    obtain ⟨-, h2, h3⟩ := hstag j hj
    obtain ⟨h1, -, -⟩ := hframe j
    rw [hself] at h1 h2 h3
    simp only at h1 h2 h3
    exact ⟨h1, by omega, by rw [h3]⟩
  obtain ⟨q, hS, hq⟩ := Solve_returns_after c fuel self options problem parameters
    global_summary (not_initialMinimizationFailed c parameters hnf)
    options.max_stagnant_iterations
    (by
      intro j hj
      rw [fires_eq_false_iff]
      obtain ⟨h1, h2, h3⟩ := hfacts j (by omega)
      rw [h1, h2, h3]
      exact ⟨hcost, by omega, hj⟩)
    (by
      obtain ⟨-, h2, -⟩ := hfacts options.max_stagnant_iterations (le_refl _)
      unfold fires
      simp only [decide_eq_true_eq]
      right; right
      omega)
    (by omega)
  obtain ⟨h1, h2, h3⟩ := hfacts options.max_stagnant_iterations (le_refl _)
  refine ⟨q, hS, ?_, ?_, ?_, ?_, ?_⟩
  · rw [hq.kind]
    unfold firedKind
    rw [hq.self_eq, h1, h3, if_neg (not_lt.mpr hcost), if_neg (by omega)]
  · rw [hq.num_iterations, hq.self_eq, h1]
    omega
  · rw [hq.loop_iterations, hloops]
    simp [Calls.zero]
  · rw [hq.self_eq, h2]
  · intro j hj
    obtain ⟨g1, g2, -⟩ := hfacts j hj
    rw [g1, g2]
    omega

/-- Witness for C12: scenario D of the spec (`cost = x²`, start 10, a step that never moves
the point, a deterministic local minimizer, `max_stagnant_iterations = 2`). -/
theorem stagnation_budget_exhausted_witness :
    ∃ q, Solve idealCollaborators 10 (freshBasinhopping 1) scenarioD squareProblem [10]
        defaultSummary = some q ∧
      q.summary.termination_type = TerminationType.CONVERGENCE ∧
      q.summary.num_iterations = 3 ∧
      q.calls.loop_iterations = 2 ∧
      q.self.num_stagnant_iterations = 2 ∧
      (∀ j, j ≤ 2 →
        (stateAfter idealCollaborators scenarioD squareProblem j
            (initialRun idealCollaborators (freshBasinhopping 1) squareProblem [10]
              defaultSummary)).self.num_stagnant_iterations
          = (stateAfter idealCollaborators scenarioD squareProblem j
            (initialRun idealCollaborators (freshBasinhopping 1) squareProblem [10]
              defaultSummary)).self.num_iterations - 1) :=
  stagnation_budget_exhausted idealCollaborators 10 (freshBasinhopping 1) scenarioD
    squareProblem [10] defaultSummary ⟨by decide, by decide⟩ (by decide) (by decide)
    (by decide) (by decide) (by decide)

/-- The cost the helper leaves in the state is the one `problem.Evaluate` wrote, and the
helper succeeds only if `problem.Evaluate` did. -/
theorem Evaluate_cost (problem : GradientProblem) (k : Nat) (x : Vector) (state : State)
    (message : String) :
    (Evaluate problem k x state message).2.1.cost =
        (problem.Evaluate k x state.cost state.gradient).2.1 ∧
      ((Evaluate problem k x state message).1 = true →
        (problem.Evaluate k x state.cost state.gradient).1 = true) := by
  unfold Evaluate
  rcases hE : problem.Evaluate k x state.cost state.gradient with ⟨b, c, g⟩
  cases b with
  | false => simp
  | true =>
    cases hP : problem.Plus x (g.map (fun a => -a)) with
    | none => simp [hP]
    | some p => simp [hP]

/-- For an objective whose successful evaluations return `cost x`, a successful helper call
at `state.x` leaves a consistent state. -/
theorem Evaluate_consistent (problem : GradientProblem) (cost : Vector → Scalar)
    (hdet : ∀ (k : Nat) (x : Vector) (c0 : Scalar) (g0 : Vector),
      (problem.Evaluate k x c0 g0).1 = true → (problem.Evaluate k x c0 g0).2.1 = cost x)
    (k : Nat) (state : State) (message : String)
    (h : (Evaluate problem k state.x state message).1 = true) :
    consistent cost (Evaluate problem k state.x state message).2.1 := by
  unfold consistent
  obtain ⟨h1, h2⟩ := Evaluate_cost problem k state.x state message
  rw [h1, Evaluate_x, hdet _ _ _ _ (h2 h)]

/-- A loop body whose evaluation succeeds keeps the three states consistent with a
deterministic objective. -/
theorem loopBody_consistent (c : Collaborators) (options : Options)
    (problem : GradientProblem) (cost : Vector → Scalar)
    (hdet : ∀ (k : Nat) (x : Vector) (c0 : Scalar) (g0 : Vector),
      (problem.Evaluate k x c0 g0).1 = true → (problem.Evaluate k x c0 g0).2.1 = cost x)
    (r : Run) (heval : (loopEvaluation c options problem r).1 = true)
    (h : consistent cost r.self.current_state ∧ consistent cost r.self.global_minimum_state) :
    consistent cost (loopBody c options problem r).1.self.current_state ∧
      consistent cost (loopBody c options problem r).1.self.global_minimum_state := by
  have hcand : consistent cost (loopBody c options problem r).1.self.candidate_state :=
    Evaluate_consistent problem cost hdet r.calls.evaluations
      { r.self.candidate_state with
          x := (c.local_minimizer r.calls.local_minimizations
            (options.step_function r.calls.steps r.self.candidate_state.x)).1 }
      r.summary.message heval
  obtain ⟨hc, hg, -, -⟩ := loopBody_self c options problem r
  rw [hc, hg]
  constructor
  · split_ifs
    · exact hcand
    · exact h.1
  · split_ifs
    · exact hcand
    · exact h.2

/-- C20 (consistency of the result). For an objective whose successful evaluations return
`cost x` (a deterministic objective), if the initial local minimization does not fail, the
evaluation at the locally minimised start point succeeds and the evaluation of every loop
iteration within the iteration budget succeeds, then `Solve` (with fuel covering the budget)
returns, `summary.final_cost` is the objective's cost at the point left in the caller's
buffer, which is `global_minimum_state.x`, and `summary.num_iterations` is 1 plus the
number of executed loop iterations. -/
theorem result_consistent (c : Collaborators) (fuel : Nat) (self : Basinhopping)
    (options : Options) (problem : GradientProblem) (parameters : Vector)
    (global_summary : Summary) (cost : Vector → Scalar)
    (hdet : ∀ (k : Nat) (x : Vector) (c0 : Scalar) (g0 : Vector),
      (problem.Evaluate k x c0 g0).1 = true → (problem.Evaluate k x c0 g0).2.1 = cost x)
    (hnf : (c.local_minimizer 0 parameters).2.termination_type ≠ TerminationType.FAILURE ∧
      (c.local_minimizer 0 parameters).2.termination_type ≠ TerminationType.USER_FAILURE)
    (heval : (secondEvaluation c problem parameters global_summary).1 = true)
    (hloop : ∀ j, j < options.max_iterations - 1 →
      (loopEvaluation c options problem (stateAfter c options problem j
        (initialRun c self problem parameters global_summary))).1 = true)
    (hfuel : options.max_iterations ≤ fuel) :
    ∃ q, Solve c fuel self options problem parameters global_summary = some q ∧
      q.summary.final_cost = cost q.parameters ∧
      q.parameters = q.self.global_minimum_state.x ∧
      q.summary.num_iterations = 1 + q.calls.loop_iterations := by
  have hnf2 := not_initialMinimizationFailed c parameters hnf
  have hself := initialRun_self_of_success c self problem parameters global_summary heval
  have hloops := (initialRun_frame c self problem parameters global_summary).2.1
  have hframe := stateAfter_frame c options problem
    (initialRun c self problem parameters global_summary)
  obtain ⟨r0, ls, -, -, hS⟩ := Solve_checked c fuel self options problem parameters
    global_summary (fun _ => True) trivial (fun _ _ _ => trivial) hnf2 hfuel
  obtain ⟨K, hq⟩ := Solve_some_returns_after c fuel self options problem parameters
    global_summary hnf2 _ hS
  have hstart : consistent cost (secondEvaluation c problem parameters global_summary).2.1 :=
    Evaluate_consistent problem cost hdet 1
      { (firstEvaluation c problem parameters global_summary).2.1 with
          x := (initialMinimization c parameters).1 } _ heval
  have hinv : ∀ j, j ≤ K →
      consistent cost (stateAfter c options problem j
        (initialRun c self problem parameters global_summary)).self.current_state ∧
      consistent cost (stateAfter c options problem j
        (initialRun c self problem parameters global_summary)).self.global_minimum_state := by
    intro j
    induction j with
    | zero =>
      intro _
      show consistent cost (initialRun c self problem parameters
          global_summary).self.current_state ∧
        consistent cost (initialRun c self problem parameters
          global_summary).self.global_minimum_state
      rw [hself]
      exact ⟨hstart, hstart⟩
    | succ i ih =>
      intro hi
      have hquiet := hq.quiet i (by omega)
      rw [fires_eq_false_iff] at hquiet
      have hnum := (hframe i).1
      rw [hself] at hnum
      simp only at hnum
      have hev := hloop i (by omega)
      show consistent cost (iteration c options problem (stateAfter c options problem i
          (initialRun c self problem parameters global_summary))).1.self.current_state ∧
        consistent cost (iteration c options problem (stateAfter c options problem i
          (initialRun c self problem parameters global_summary))).1.self.global_minimum_state
      rw [iteration_self]
      exact loopBody_consistent c options problem cost hdet _ hev (ih (by omega))
  refine ⟨_, hS, ?_, hq.parameters, ?_⟩
  · rw [hq.final_cost, hq.parameters, hq.self_eq]
    exact (hinv K (le_refl _)).2
  · rw [hq.num_iterations, hq.loop_iterations, hloops, hq.self_eq, (hframe K).1, hself]
    simp [Calls.zero]

/-- Witness for C20: scenario A of the spec, with `cost x` the sum of the squares. -/
theorem result_consistent_witness :
    ∃ q, Solve idealCollaborators 5 (freshBasinhopping 1) scenarioA squareProblem [10]
        defaultSummary = some q ∧
      q.summary.final_cost = squaredNorm q.parameters ∧
      q.parameters = q.self.global_minimum_state.x ∧
      q.summary.num_iterations = 1 + q.calls.loop_iterations :=
  result_consistent idealCollaborators 5 (freshBasinhopping 1) scenarioA squareProblem [10]
    defaultSummary squaredNorm (fun _ _ _ _ _ => rfl) ⟨by decide, by decide⟩ (by decide)
    (by decide) (by decide)

/-! ## Termination -/

/-- More fuel does not change what the loop returns. -/
theorem mainLoop_mono (c : Collaborators) (options : Options) (problem : GradientProblem) :
    ∀ (fuel : Nat) (r q : Run), mainLoop c options problem fuel r = some q →
      ∀ extra : Nat, mainLoop c options problem (fuel + extra) r = some q := by
  intro fuel
  induction fuel with
  | zero => intro r q h; simp [mainLoop] at h
  | succ f ih =>
    intro r q h extra
    rw [show f + 1 + extra = (f + extra) + 1 by omega]
    unfold mainLoop at h ⊢
    cases hit : iteration c options problem r with
    | mk r1 b =>
      rw [hit] at h
      cases b with
      | true => exact h
      | false => exact ih r1 q h extra

/-- More fuel does not change what `Solve` returns. -/
theorem Solve_mono (c : Collaborators) (fuel : Nat) (self : Basinhopping) (options : Options)
    (problem : GradientProblem) (parameters : Vector) (global_summary : Summary) (q : Run)
    (h : Solve c fuel self options problem parameters global_summary = some q)
    (extra : Nat) :
    Solve c (fuel + extra) self options problem parameters global_summary = some q := by
  rw [Solve_eq] at h ⊢
  split_ifs at h ⊢ with hf
  · exact h
  · cases hfin : finish options (initialMinimization c parameters).2
        (initialRun c self problem parameters global_summary) with
    | mk r1 b =>
      rw [hfin] at h
      cases b with
      | true => exact h
      | false => exact mainLoop_mono c options problem fuel r1 q h extra

/-- C21 (termination bound). The collaborators being total functions (every call to the
objective, the local minimizer, the step strategy and the acceptance test returns), `Solve`
returns for every options value as soon as the fuel covers `max_iterations`, and what it
returns is the same for every such fuel. The loop body is executed at most `max_iterations`
times, and at most `max(max_iterations, 1) - 1` times when initialisation succeeded (the
initial local minimization did not fail and the evaluation at the locally minimised start
point succeeded), and `summary.num_iterations <= max(max_iterations, 1)` at return. -/
theorem Solve_terminates (c : Collaborators) (fuel : Nat) (self : Basinhopping)
    (options : Options) (problem : GradientProblem) (parameters : Vector)
    (global_summary : Summary) (hfuel : options.max_iterations ≤ fuel) :
    ∃ q, Solve c fuel self options problem parameters global_summary = some q ∧
      (∀ other : Nat, options.max_iterations ≤ other →
        Solve c other self options problem parameters global_summary = some q) ∧
      q.calls.loop_iterations ≤ options.max_iterations ∧
      (¬ initialMinimizationFailed c parameters →
        (secondEvaluation c problem parameters global_summary).1 = true →
        q.calls.loop_iterations ≤ max options.max_iterations 1 - 1) ∧
      q.summary.num_iterations ≤ max options.max_iterations 1 := by
  by_cases hnf : initialMinimizationFailed c parameters
  · refine ⟨failedRun c self problem parameters global_summary, ?_, ?_, ?_, ?_, ?_⟩
    · rw [Solve_eq, if_pos hnf]
    · intro other _
      rw [Solve_eq, if_pos hnf]
    · simp [failedRun, Calls.zero]
    · intro h; exact absurd hnf h
    · simp [failedRun]
  · obtain ⟨r0, ls, -, -, hmin⟩ := Solve_checked c options.max_iterations self options
      problem parameters global_summary (fun _ => True) trivial (fun _ _ _ => trivial) hnf
      (le_refl _)
    have hall : ∀ other : Nat, options.max_iterations ≤ other →
        Solve c other self options problem parameters global_summary =
          some (finish options ls r0).1 := by
      intro other hother
      have := Solve_mono c options.max_iterations self options problem parameters
        global_summary _ hmin (other - options.max_iterations)
      rw [show options.max_iterations + (other - options.max_iterations) = other by omega]
        at this
      exact this
    obtain ⟨K, hq⟩ := Solve_some_returns_after c options.max_iterations self options problem
      parameters global_summary hnf _ hmin
    have hloops := (initialRun_frame c self problem parameters global_summary).2.1
    have hle := initialRun_num_iterations_le c self problem parameters global_summary
    have hframe := stateAfter_frame c options problem
      (initialRun c self problem parameters global_summary)
    have hK : (finish options ls r0).1.calls.loop_iterations = K := by
      rw [hq.loop_iterations, hloops]
      simp [Calls.zero]
    have hnum : (finish options ls r0).1.summary.num_iterations =
        (initialRun c self problem parameters global_summary).self.num_iterations + K := by
      rw [hq.num_iterations, hq.self_eq, (hframe K).1]
    have hbound : K = 0 ∨
        (initialRun c self problem parameters global_summary).self.num_iterations + K ≤
          options.max_iterations := by
      cases K with
      | zero => exact Or.inl rfl
      | succ k =>
        right
        have hquiet := hq.quiet k (Nat.lt_succ_self k)
        rw [fires_eq_false_iff, (hframe k).1] at hquiet
        omega
    refine ⟨_, hall fuel hfuel, hall, ?_, ?_, ?_⟩
    · rw [hK]
      omega
    · intro _ heval
      have hself := initialRun_self_of_success c self problem parameters global_summary heval
      have hone : (initialRun c self problem parameters global_summary).self.num_iterations
          = 1 := by rw [hself]
      rw [hK]
      omega
    · rw [hnum]
      omega

/-- Witness for C21: scenario A of the spec with fuel 5 executes 4 loop iterations and
reports `num_iterations = 5`. -/
theorem Solve_terminates_witness :
    ∃ q, Solve idealCollaborators 5 (freshBasinhopping 1) scenarioA squareProblem [10]
        defaultSummary = some q ∧
      (∀ other : Nat, scenarioA.max_iterations ≤ other →
        Solve idealCollaborators other (freshBasinhopping 1) scenarioA squareProblem [10]
          defaultSummary = some q) ∧
      q.calls.loop_iterations ≤ scenarioA.max_iterations ∧
      (¬ initialMinimizationFailed idealCollaborators [10] →
        (secondEvaluation idealCollaborators squareProblem [10] defaultSummary).1 = true →
        q.calls.loop_iterations ≤ max scenarioA.max_iterations 1 - 1) ∧
      q.summary.num_iterations ≤ max scenarioA.max_iterations 1 :=
  Solve_terminates idealCollaborators 5 (freshBasinhopping 1) scenarioA squareProblem [10]
    defaultSummary (by decide)

/-! ## Costs that may be NaN: the order of `Double` -/

theorem Double_lt_irrefl (a : Double) : ¬ a < a := by
  cases a with
  | finite v =>
    show ¬ (Double.lt (Double.finite v) (Double.finite v) = true)
    simp [Double.lt]
  | nan =>
    show ¬ (Double.lt Double.nan Double.nan = true)
    simp [Double.lt]

theorem Double_finite_lt (x y : Int) : Double.finite x < Double.finite y ↔ x < y := by
  show Double.lt (Double.finite x) (Double.finite y) = true ↔ x < y
  simp [Double.lt]

theorem Double_not_nan_lt (b : Double) : ¬ Double.nan < b := by
  show ¬ (Double.lt Double.nan b = true)
  simp [Double.lt]

theorem Double_not_lt_nan (a : Double) : ¬ a < Double.nan := by
  show ¬ (Double.lt a Double.nan = true)
  cases a <;> simp [Double.lt]

theorem Double_lt_trans (a b c : Double) (hab : a < b) (hbc : b < c) : a < c := by
  cases a with
  | nan => exact absurd hab (Double_not_nan_lt b)
  | finite x =>
    cases b with
    | nan => exact absurd hab (Double_not_lt_nan _)
    | finite y =>
      cases c with
      | nan => exact absurd hbc (Double_not_lt_nan _)
      | finite z =>
        rw [Double_finite_lt] at hab hbc ⊢
        omega

/-- For two costs that are not NaN, a failed `<` is the `>=` the other way round. -/
theorem Double_le_of_not_lt (a b : Double) (ha : a ≠ Double.nan) (hb : b ≠ Double.nan)
    (h : ¬ a < b) : b ≤ a := by
  cases a with
  | nan => exact absurd rfl ha
  | finite x =>
    cases b with
    | nan => exact absurd rfl hb
    | finite y =>
      have h1 : ¬ (Double.lt (Double.finite x) (Double.finite y) = true) := h
      simp only [Double.lt, decide_eq_true_eq] at h1
      show Double.le (Double.finite y) (Double.finite x) = true
      simp only [Double.le, decide_eq_true_eq]
      omega

/-- A cost that equals another or lies below it is not above it. -/
theorem Double_not_lt_of_descends (a b : Double) (h : a = b ∨ a < b) : ¬ b < a := by
  intro hba
  rcases h with h | h
  · rw [h] at hba
    exact Double_lt_irrefl b hba
  · exact Double_lt_irrefl a (Double_lt_trans a b a h hba)

namespace ieee

/-! ## Costs that may be NaN: the run -/

theorem Evaluate_x_ieee (problem : GradientProblem) (k : Nat) (x : Vector) (state : State)
    (message : String) : (Evaluate problem k x state message).2.1.x = state.x := by
  unfold Evaluate
  split
  · rfl
  · dsimp only
    split <;> rfl

/-- When the check does not fire, `finish` leaves the run as it was, and none of the three
termination conditions holds. -/
theorem finish_false_ieee (options : Options) (ls : LocalSummary) (r : Run)
    (h : (finish options ls r).2 = false) :
    (finish options ls r).1 = r ∧
      ¬ r.self.global_minimum_state.cost < options.minimum_cost ∧
      r.self.num_iterations < options.max_iterations ∧
      r.self.num_stagnant_iterations < options.max_stagnant_iterations := by
  unfold finish check_for_termination_ at *
  split_ifs at * with h1 h2 h3 <;> simp_all [IsSolutionUsable, prepare_final_summary_]

/-- When the check fires, `finish` finalises the summary and writes the global best to the
caller's buffer. -/
theorem finish_true_ieee (options : Options) (ls : LocalSummary) (r : Run)
    (h : (finish options ls r).2 = true) :
    (finish options ls r).1.self = r.self ∧
      (finish options ls r).1.new_global_min = r.new_global_min ∧
      (finish options ls r).1.parameters = r.self.global_minimum_state.x ∧
      (finish options ls r).1.calls =
        { r.calls with buffer_writes := r.calls.buffer_writes + 1 } ∧
      (finish options ls r).1.summary.termination_type = firedKind r.self options ∧
      (finish options ls r).1.summary.final_cost = r.self.global_minimum_state.cost ∧
      (finish options ls r).1.summary.num_iterations = r.self.num_iterations ∧
      (finish options ls r).1.summary.local_minimization_summary = ls ∧
      (finish options ls r).1.summary.initial_cost = r.summary.initial_cost ∧
      (finish options ls r).1.summary.num_parameters = r.summary.num_parameters := by
  unfold finish check_for_termination_ firedKind at *
  split_ifs at * with h1 h2 h3 <;>
    simp_all [IsSolutionUsable, prepare_final_summary_]

/-- The two ways `Solve` can return: at line 212 after a failed initial local minimization,
or through a termination check. -/
theorem Solve_eq_ieee (c : Collaborators) (fuel : Nat) (self : Basinhopping) (options : Options)
    (problem : GradientProblem) (parameters : Vector) (global_summary : Summary) :
    Solve c fuel self options problem parameters global_summary =
      if initialMinimizationFailed c parameters then
        some (failedRun c self problem parameters global_summary)
      else
        match finish options (initialMinimization c parameters).2
            (initialRun c self problem parameters global_summary) with
        | (r1, true) => some r1
        | (r1, false) => mainLoop c options problem fuel r1 := by
  unfold Solve initialMinimizationFailed
  simp only [Evaluate_x_ieee]
  by_cases h : (c.local_minimizer 0 parameters).2.termination_type ≠ TerminationType.FAILURE ∧
      (c.local_minimizer 0 parameters).2.termination_type ≠ TerminationType.USER_FAILURE
  · have h2 : ¬ ((initialMinimization c parameters).2.termination_type = TerminationType.FAILURE ∨
        (initialMinimization c parameters).2.termination_type = TerminationType.USER_FAILURE) := by
      unfold initialMinimization
      tauto
    rw [if_pos h, if_neg h2]
    unfold initialRun initialSummary secondEvaluation firstEvaluation initialMinimization
    split_ifs <;> rfl
  · have h2 : (initialMinimization c parameters).2.termination_type = TerminationType.FAILURE ∨
        (initialMinimization c parameters).2.termination_type = TerminationType.USER_FAILURE := by
      unfold initialMinimization
      tauto
    rw [if_neg h, if_pos h2]
    unfold failedRun initialSummary firstEvaluation initialMinimization prepare_final_summary_
    split_ifs <;> rfl

theorem loopBody_num_iterations_ieee (c : Collaborators) (options : Options)
    (problem : GradientProblem) (r : Run) :
    (loopBody c options problem r).1.self.num_iterations = r.self.num_iterations + 1 := rfl

theorem initialRun_frame_ieee (c : Collaborators) (self : Basinhopping)
    (problem : GradientProblem) (parameters : Vector) (global_summary : Summary) :
    (initialRun c self problem parameters global_summary).parameters = parameters ∧
      (initialRun c self problem parameters global_summary).calls =
        { Calls.zero with evaluations := 2, local_minimizations := 1 } ∧
      (initialRun c self problem parameters global_summary).new_global_min = false := by
  unfold initialRun
  split_ifs <;> simp

/-- The termination check never changes the orchestrator object. -/
theorem finish_self_ieee (options : Options) (ls : LocalSummary) (r : Run) :
    (finish options ls r).1.self = r.self := by
  unfold finish
  split
  · dsimp only
    split_ifs <;> rfl
  · rfl

/-- The orchestrator object after a loop body, in terms of `accepted` and `replaced`. -/
theorem loopBody_self_ieee (c : Collaborators) (options : Options) (problem : GradientProblem)
    (r : Run) :
    (loopBody c options problem r).1.self.current_state =
        (if accepted c options problem r then
          (loopBody c options problem r).1.self.candidate_state
        else r.self.current_state) ∧
      (loopBody c options problem r).1.self.global_minimum_state =
        (if replaced c options problem r then
          (loopBody c options problem r).1.self.candidate_state
        else r.self.global_minimum_state) ∧
      (loopBody c options problem r).1.new_global_min =
        (if accepted c options problem r then replaced c options problem r
        else r.new_global_min) ∧
      (loopBody c options problem r).1.self.num_stagnant_iterations =
        (if (loopBody c options problem r).1.new_global_min then 0
        else r.self.num_stagnant_iterations + 1) := by
  have hupd : (loopBody c options problem r).1.self.global_minimum_state =
        (if accepted c options problem r then
          r.self.global_minimum_state.update
            (if accepted c options problem r then
              (loopBody c options problem r).1.self.candidate_state
            else r.self.current_state)
        else (r.self.global_minimum_state, r.new_global_min)).1 ∧
      (loopBody c options problem r).1.new_global_min =
        (if accepted c options problem r then
          r.self.global_minimum_state.update
            (if accepted c options problem r then
              (loopBody c options problem r).1.self.candidate_state
            else r.self.current_state)
        else (r.self.global_minimum_state, r.new_global_min)).2 := ⟨rfl, rfl⟩
  refine ⟨rfl, ?_, ?_, rfl⟩
  · rw [hupd.1]
    unfold replaced State.update
    cases accepted c options problem r with
    | false => rfl
    | true =>
      simp only [if_true, Bool.true_and, decide_eq_true_eq]
      by_cases hlt : candidateCost c options problem r < r.self.global_minimum_state.cost
      · rw [if_pos hlt]
        have hlt2 : (loopBody c options problem r).1.self.candidate_state.cost <
            r.self.global_minimum_state.cost := hlt
        rw [if_pos hlt2]
      · rw [if_neg hlt]
        have hlt2 : ¬ (loopBody c options problem r).1.self.candidate_state.cost <
            r.self.global_minimum_state.cost := hlt
        rw [if_neg hlt2]
  · rw [hupd.2]
    unfold replaced State.update
    cases accepted c options problem r with
    | false => rfl
    | true =>
      simp only [if_true, Bool.true_and]
      by_cases hlt : candidateCost c options problem r < r.self.global_minimum_state.cost
      · have hlt2 : (loopBody c options problem r).1.self.candidate_state.cost <
            r.self.global_minimum_state.cost := hlt
        rw [if_pos hlt2]
        exact (decide_eq_true hlt).symm
      · have hlt2 : ¬ (loopBody c options problem r).1.self.candidate_state.cost <
            r.self.global_minimum_state.cost := hlt
        rw [if_neg hlt2]
        exact (decide_eq_false hlt).symm

theorem finish_snd_ieee (options : Options) (ls : LocalSummary) (r : Run) :
    (finish options ls r).2 = fires options r.self := by
  unfold finish check_for_termination_ fires
  split_ifs with h1 h2 h3 <;> simp_all [IsSolutionUsable, prepare_final_summary_]

/-- The termination check leaves the flag `new_global_min` and the counts of collaborator
calls and loop iterations as they are. -/
theorem finish_frame_ieee (options : Options) (ls : LocalSummary) (r : Run) :
    (finish options ls r).1.new_global_min = r.new_global_min ∧
      (finish options ls r).1.calls.loop_iterations = r.calls.loop_iterations ∧
      (finish options ls r).1.calls.evaluations = r.calls.evaluations ∧
      (finish options ls r).1.calls.local_minimizations = r.calls.local_minimizations ∧
      (finish options ls r).1.calls.steps = r.calls.steps ∧
      (finish options ls r).1.calls.acceptance_tests = r.calls.acceptance_tests := by
  cases hb : (finish options ls r).2 with
  | false =>
    rw [(finish_false_ieee options ls r hb).1]
    exact ⟨rfl, rfl, rfl, rfl, rfl, rfl⟩
  | true =>
    obtain ⟨-, h2, -, h4, -⟩ := finish_true_ieee options ls r hb
    rw [h2, h4]
    exact ⟨rfl, rfl, rfl, rfl, rfl, rfl⟩

theorem iteration_self_ieee (c : Collaborators) (options : Options) (problem : GradientProblem)
    (r : Run) :
    (iteration c options problem r).1.self = (loopBody c options problem r).1.self := by
  unfold iteration
  exact finish_self_ieee _ _ _

theorem iteration_snd_ieee (c : Collaborators) (options : Options) (problem : GradientProblem)
    (r : Run) :
    (iteration c options problem r).2 =
      fires options (stateAfter c options problem 1 r).self := by
  show (iteration c options problem r).2 = fires options (iteration c options problem r).1.self
  rw [iteration_self_ieee]
  unfold iteration
  exact finish_snd_ieee _ _ _

theorem stateAfter_succ_left_ieee (c : Collaborators) (options : Options)
    (problem : GradientProblem) (r : Run) :
    ∀ k : Nat, stateAfter c options problem (k + 1) r =
      stateAfter c options problem k (iteration c options problem r).1 := by
  intro k
  induction k with
  | zero => rfl
  | succ n ih =>
    show (iteration c options problem (stateAfter c options problem (n + 1) r)).1 =
      (iteration c options problem
        (stateAfter c options problem n (iteration c options problem r).1)).1
    rw [ih]

/-- Every run the loop returns is the run after `k + 1` iterations, for the first `k` whose
iteration returns. -/
theorem mainLoop_some_first_fire_ieee (c : Collaborators) (options : Options)
    (problem : GradientProblem) :
    ∀ (fuel : Nat) (r q : Run), mainLoop c options problem fuel r = some q →
      ∃ k, k < fuel ∧
        (∀ j, j < k →
          (iteration c options problem (stateAfter c options problem j r)).2 = false) ∧
        (iteration c options problem (stateAfter c options problem k r)).2 = true ∧
        q = stateAfter c options problem (k + 1) r := by
  intro fuel
  induction fuel with
  | zero => intro r q h; simp [mainLoop] at h
  | succ f ih =>
    intro r q h
    unfold mainLoop at h
    cases hit : iteration c options problem r with
    | mk r1 b =>
      rw [hit] at h
      have hr1 : r1 = (iteration c options problem r).1 := by rw [hit]
      cases b with
      | true =>
        simp only [Option.some.injEq] at h
        refine ⟨0, Nat.succ_pos f, fun j hj => absurd hj (Nat.not_lt_zero j), ?_, ?_⟩
        · show (iteration c options problem r).2 = true
          rw [hit]
        · show q = (iteration c options problem r).1
          rw [← hr1, h]
      | false =>
        simp only at h
        obtain ⟨k, hk, hquiet, hfire, hq⟩ := ih r1 q h
        refine ⟨k + 1, by omega, ?_, ?_, ?_⟩
        · intro j hj
          cases j with
          | zero =>
            show (iteration c options problem r).2 = false
            rw [hit]
          | succ i =>
            rw [stateAfter_succ_left_ieee, ← hr1]
            exact hquiet i (by omega)
        · rw [stateAfter_succ_left_ieee, ← hr1]
          exact hfire
        · rw [stateAfter_succ_left_ieee, ← hr1]
          exact hq

/-- Along the trajectory the iteration counter and the count of loop iterations grow by one
per iteration, and the stagnation counter by at most one. -/
theorem stateAfter_frame_ieee (c : Collaborators) (options : Options) (problem : GradientProblem)
    (r : Run) :
    ∀ j : Nat,
      (stateAfter c options problem j r).self.num_iterations = r.self.num_iterations + j ∧
        (stateAfter c options problem j r).calls.loop_iterations =
          r.calls.loop_iterations + j ∧
        (stateAfter c options problem j r).self.num_stagnant_iterations ≤
          r.self.num_stagnant_iterations + j := by
  intro j
  induction j with
  | zero => exact ⟨rfl, rfl, le_refl _⟩
  | succ n ih =>
    obtain ⟨h1, h2, h3⟩ := ih
    have hself := iteration_self_ieee c options problem (stateAfter c options problem n r)
    have hstag := (loopBody_self_ieee c options problem (stateAfter c options problem n r)).2.2.2
    refine ⟨?_, ?_, ?_⟩
    · show (iteration c options problem (stateAfter c options problem n r)).1.self.num_iterations
        = r.self.num_iterations + (n + 1)
      rw [hself, loopBody_num_iterations_ieee, h1]
      omega
    · show (iteration c options problem
          (stateAfter c options problem n r)).1.calls.loop_iterations =
        r.calls.loop_iterations + (n + 1)
      unfold iteration
      rw [(finish_frame_ieee _ _ _).2.1]
      show (stateAfter c options problem n r).calls.loop_iterations + 1 = _
      rw [h2]
      omega
    · show (iteration c options problem
          (stateAfter c options problem n r)).1.self.num_stagnant_iterations ≤
        r.self.num_stagnant_iterations + (n + 1)
      rw [hself, hstag]
      split_ifs <;> omega

/-- The summary and buffer a termination check leaves when it fires. -/
theorem fired_summary_ieee (options : Options) (ls : LocalSummary) (r : Run)
    (h : fires options r.self = true) :
    (finish options ls r).1.self = r.self ∧
      (finish options ls r).1.summary.termination_type =
        firedKind (finish options ls r).1.self options ∧
      (finish options ls r).1.summary.final_cost =
        (finish options ls r).1.self.global_minimum_state.cost ∧
      (finish options ls r).1.summary.num_iterations =
        (finish options ls r).1.self.num_iterations ∧
      (finish options ls r).1.parameters =
        (finish options ls r).1.self.global_minimum_state.x ∧
      (finish options ls r).1.calls.loop_iterations = r.calls.loop_iterations := by
  have hb : (finish options ls r).2 = true := by rw [finish_snd_ieee]; exact h
  obtain ⟨h1, -, h3, -, h5, h6, h7, -⟩ := finish_true_ieee options ls r hb
  rw [h1]
  exact ⟨rfl, h5, h6, h7, h3, (finish_frame_ieee options ls r).2.1⟩

theorem returnsAfter_zero_ieee (c : Collaborators) (options : Options) (problem : GradientProblem)
    (ls : LocalSummary) (r0 : Run) (h : fires options r0.self = true) :
    ReturnsAfter c options problem r0 0 (finish options ls r0).1 := by
  obtain ⟨h1, h2, h3, h4, h5, h6⟩ := fired_summary_ieee options ls r0 h
  exact
    { quiet := fun j hj => absurd hj (Nat.not_lt_zero j)
      fired := h
      self_eq := h1
      kind := h2
      final_cost := h3
      num_iterations := h4
      parameters := h5
      loop_iterations := h6 }

theorem returnsAfter_succ_ieee (c : Collaborators) (options : Options) (problem : GradientProblem)
    (r0 : Run) (k : Nat)
    (hquiet : ∀ j, j < k + 1 → fires options (stateAfter c options problem j r0).self = false)
    (hfired : fires options (stateAfter c options problem (k + 1) r0).self = true) :
    ReturnsAfter c options problem r0 (k + 1) (stateAfter c options problem (k + 1) r0) := by
  have hf : fires options
      (loopBody c options problem (stateAfter c options problem k r0)).1.self = true := by
    rw [← iteration_self_ieee]
    exact hfired
  obtain ⟨-, h2, h3, h4, h5, -⟩ := fired_summary_ieee options
    (loopBody c options problem (stateAfter c options problem k r0)).2
    (loopBody c options problem (stateAfter c options problem k r0)).1 hf
  exact
    { quiet := hquiet
      fired := hfired
      self_eq := rfl
      kind := h2
      final_cost := h3
      num_iterations := h4
      parameters := h5
      loop_iterations := (stateAfter_frame_ieee c options problem r0 (k + 1)).2.1 }

/-- Converse: every run `Solve` returns after a non-failing initial local minimization is
described by `ReturnsAfter` for some number `K` of loop iterations. -/
theorem Solve_some_returns_after_ieee (c : Collaborators) (fuel : Nat) (self : Basinhopping)
    (options : Options) (problem : GradientProblem) (parameters : Vector)
    (global_summary : Summary) (hnf : ¬ initialMinimizationFailed c parameters) (q : Run)
    (hS : Solve c fuel self options problem parameters global_summary = some q) :
    ∃ K, ReturnsAfter c options problem
      (initialRun c self problem parameters global_summary) K q := by
  rw [Solve_eq_ieee, if_neg hnf] at hS
  cases hfin : finish options (initialMinimization c parameters).2
      (initialRun c self problem parameters global_summary) with
  | mk r1 b =>
    rw [hfin] at hS
    have hsnd := finish_snd_ieee options (initialMinimization c parameters).2
      (initialRun c self problem parameters global_summary)
    rw [hfin] at hsnd
    simp only at hsnd
    cases b with
    | true =>
      simp only [Option.some.injEq] at hS
      refine ⟨0, ?_⟩
      have := returnsAfter_zero_ieee c options problem (initialMinimization c parameters).2
        (initialRun c self problem parameters global_summary) hsnd.symm
      rw [hfin] at this
      rw [← hS]
      exact this
    | false =>
      simp only at hS
      have hb : (finish options (initialMinimization c parameters).2
          (initialRun c self problem parameters global_summary)).2 = false := by rw [hfin]
      have hr := (finish_false_ieee _ _ _ hb).1
      rw [hfin] at hr
      simp only at hr
      rw [hr] at hS
      obtain ⟨k, -, hquiet, hfire, hq⟩ := mainLoop_some_first_fire_ieee c options problem fuel _ q hS
      refine ⟨k + 1, ?_⟩
      rw [hq]
      apply returnsAfter_succ_ieee
      · intro j hj
        cases j with
        | zero => exact hsnd.symm
        | succ i =>
          have := hquiet i (by omega)
          rw [iteration_snd_ieee] at this
          exact this
      · rw [iteration_snd_ieee] at hfire
        exact hfire

/-- The orchestrator object of the initial run after a successful second evaluation
(lines 200-203). -/
theorem initialRun_self_of_success_ieee (c : Collaborators) (self : Basinhopping)
    (problem : GradientProblem) (parameters : Vector) (global_summary : Summary)
    (heval : (secondEvaluation c problem parameters global_summary).1 = true) :
    (initialRun c self problem parameters global_summary).self =
      { current_state := (secondEvaluation c problem parameters global_summary).2.1
        candidate_state := (secondEvaluation c problem parameters global_summary).2.1
        global_minimum_state := (secondEvaluation c problem parameters global_summary).2.1
        num_iterations := 1
        num_stagnant_iterations := 0 } := by
  unfold initialRun
  rw [if_pos heval]

theorem not_initialMinimizationFailed_ieee (c : Collaborators) (parameters : Vector)
    (hnf : (c.local_minimizer 0 parameters).2.termination_type ≠ TerminationType.FAILURE ∧
      (c.local_minimizer 0 parameters).2.termination_type ≠ TerminationType.USER_FAILURE) :
    ¬ initialMinimizationFailed c parameters := by
  unfold initialMinimizationFailed initialMinimization
  tauto

/-- After a loop body the global-best cost is the one before or lies below it. -/
theorem loopBody_global_descends_ieee (c : Collaborators) (options : Options)
    (problem : GradientProblem) (r : Run) :
    (loopBody c options problem r).1.self.global_minimum_state.cost =
        r.self.global_minimum_state.cost ∨
      (loopBody c options problem r).1.self.global_minimum_state.cost <
        r.self.global_minimum_state.cost := by
  obtain ⟨-, hg, -, -⟩ := loopBody_self_ieee c options problem r
  rw [hg]
  cases hr : replaced c options problem r with
  | false => left; rfl
  | true =>
    right
    unfold replaced at hr
    simp only [Bool.and_eq_true, decide_eq_true_eq] at hr
    simp only [if_true]
    exact hr.2

/-- After a loop body the current cost is not below the global-best cost if it was not
before, and the cost of a candidate that was accepted is not below the global-best cost. -/
theorem loopBody_not_below_ieee (c : Collaborators) (options : Options)
    (problem : GradientProblem) (r : Run) :
    (¬ r.self.current_state.cost < r.self.global_minimum_state.cost →
        ¬ (loopBody c options problem r).1.self.current_state.cost <
          (loopBody c options problem r).1.self.global_minimum_state.cost) ∧
      (accepted c options problem r = true →
        ¬ candidateCost c options problem r <
          (loopBody c options problem r).1.self.global_minimum_state.cost) := by
  obtain ⟨hc, hg, -, -⟩ := loopBody_self_ieee c options problem r
  have hacc : accepted c options problem r = true →
      ¬ candidateCost c options problem r <
        (loopBody c options problem r).1.self.global_minimum_state.cost := by
    intro ha
    rw [hg]
    unfold replaced
    rw [ha]
    simp only [Bool.true_and]
    by_cases hlt : candidateCost c options problem r < r.self.global_minimum_state.cost
    · rw [decide_eq_true hlt, if_pos rfl]
      exact Double_lt_irrefl _
    · rw [decide_eq_false hlt]
      simp only [Bool.false_eq_true, if_false]
      exact hlt
  refine ⟨?_, hacc⟩
  intro h
  cases ha : accepted c options problem r with
  | true =>
    rw [hc, ha, if_pos rfl]
    exact hacc ha
  | false =>
    have hr : replaced c options problem r = false := by
      unfold replaced
      rw [ha]
      rfl
    rw [hc, hg, ha, hr]
    simp only [Bool.false_eq_true, if_false]
    exact h

theorem stateAfter_not_below_ieee (c : Collaborators) (options : Options)
    (problem : GradientProblem) (r : Run)
    (h : ¬ r.self.current_state.cost < r.self.global_minimum_state.cost) :
    ∀ j : Nat,
      ¬ (stateAfter c options problem j r).self.current_state.cost <
        (stateAfter c options problem j r).self.global_minimum_state.cost := by
  intro j
  induction j with
  | zero => exact h
  | succ n ih =>
    show ¬ (iteration c options problem
        (stateAfter c options problem n r)).1.self.current_state.cost <
      (iteration c options problem
        (stateAfter c options problem n r)).1.self.global_minimum_state.cost
    rw [iteration_self_ieee]
    exact (loopBody_not_below_ieee c options problem _).1 ih

theorem stateAfter_global_descends_ieee (c : Collaborators) (options : Options)
    (problem : GradientProblem) (r : Run) (j : Nat) :
    ∀ d : Nat,
      (stateAfter c options problem (j + d) r).self.global_minimum_state.cost =
          (stateAfter c options problem j r).self.global_minimum_state.cost ∨
        (stateAfter c options problem (j + d) r).self.global_minimum_state.cost <
          (stateAfter c options problem j r).self.global_minimum_state.cost := by
  intro d
  induction d with
  | zero => left; rfl
  | succ n ih =>
    have hstep := loopBody_global_descends_ieee c options problem
      (stateAfter c options problem (j + n) r)
    rw [← iteration_self_ieee] at hstep
    have hnext : (stateAfter c options problem (j + (n + 1)) r).self =
        (iteration c options problem (stateAfter c options problem (j + n) r)).1.self := rfl
    rw [hnext]
    rcases hstep with h1 | h1
    · rw [h1]
      exact ih
    · rcases ih with h2 | h2
      · right
        rw [← h2]
        exact h1
      · right
        exact Double_lt_trans _ _ _ h1 h2

/-- C2 as stated fails: an objective that reports success and returns NaN as its cost, run
from 10 with `minimum_cost = -1` and an iteration budget of two. No comparison with NaN
holds, so the cost threshold never fires, `Solve` returns `NO_CONVERGENCE`, and
`summary.final_cost` is NaN, for which `final_cost >= minimum_cost` is false. -/
theorem no_convergence_with_nan_final_cost :
    (∀ (k : Nat) (x : Vector) (cost : Double) (gradient : Vector),
        (nanProblem.Evaluate k x cost gradient).1 = true) ∧
      Solve idleGreedy 2 (freshBasinhopping 1) twoIterations nanProblem [10] defaultSummary =
        some nanRun ∧
      nanRun.summary.termination_type = TerminationType.NO_CONVERGENCE ∧
      nanRun.summary.final_cost = Double.nan ∧
      ¬ nanRun.summary.final_cost ≥ twoIterations.minimum_cost :=
  ⟨fun _ _ _ _ => rfl, by decide, by decide, by decide, by decide⟩

/-- C2 amended (termination priority). At a termination check where the global-best cost is
below `minimum_cost` and the iteration budget is exhausted, whatever the stagnation
counter, the check fires with kind `USER_SUCCESS` (not `NO_CONVERGENCE`); and whenever
`Solve` returns with kind `NO_CONVERGENCE` or `CONVERGENCE`, `summary.final_cost` is not
below `options.minimum_cost`, which is `final_cost >= minimum_cost` when neither of the two
is NaN. -/
theorem termination_priority_not_below (c : Collaborators) (fuel : Nat)
    (self : Basinhopping) (options : Options) (problem : GradientProblem)
    (parameters : Vector) (global_summary : Summary) :
    (∀ (b : Basinhopping) (message : String) (kind : TerminationType),
        b.global_minimum_state.cost < options.minimum_cost →
        b.num_iterations ≥ options.max_iterations →
        check_for_termination_ b options message kind =
          (true, "Prescribed minimum cost reached.", TerminationType.USER_SUCCESS)) ∧
      (∀ r : Run, Solve c fuel self options problem parameters global_summary = some r →
        (r.summary.termination_type = TerminationType.NO_CONVERGENCE ∨
          r.summary.termination_type = TerminationType.CONVERGENCE) →
        ¬ r.summary.final_cost < options.minimum_cost ∧
          (r.summary.final_cost ≠ Double.nan → options.minimum_cost ≠ Double.nan →
            r.summary.final_cost ≥ options.minimum_cost)) := by
  constructor
  · intro b message kind hcost _
    unfold check_for_termination_
    rw [if_pos hcost]
  · intro r hS hkind
    have hnot : ¬ r.summary.final_cost < options.minimum_cost := by
      by_cases hnf : initialMinimizationFailed c parameters
      · rw [Solve_eq_ieee, if_pos hnf] at hS
        simp only [Option.some.injEq] at hS
        rw [← hS] at hkind
        simp [failedRun] at hkind
      · obtain ⟨K, hq⟩ := Solve_some_returns_after_ieee c fuel self options problem
          parameters global_summary hnf r hS
        rw [hq.kind] at hkind
        rw [hq.final_cost]
        unfold firedKind at hkind
        split_ifs at hkind with h1 h2
        · simp at hkind
        · exact h1
        · exact h1
    exact ⟨hnot, fun h1 h2 => Double_le_of_not_lt _ _ h1 h2 hnot⟩

/-- Witness for C2 amended: the run with the NaN objective returns `NO_CONVERGENCE` and its
final cost NaN is not below the threshold -1. -/
theorem termination_priority_not_below_witness :
    ¬ nanRun.summary.final_cost < twoIterations.minimum_cost :=
  ((termination_priority_not_below idleGreedy 2 (freshBasinhopping 1) twoIterations
    nanProblem [10] defaultSummary).2 nanRun (by decide) (Or.inl (by decide))).1

/-- C19 as stated fails: `x²` from 10, where the candidate 13 evaluates successfully to a NaN
cost and is accepted. At return the global best has cost 100 and the current state cost
NaN, so `global_minimum_state.cost <= current_state.cost` is false, and `final_cost = 100`
is not `<=` the cost NaN of the accepted candidate. -/
theorem nan_candidate_breaks_global_le_current :
    (secondEvaluation idleAcceptAll (nanAtProblem [13]) [10] defaultSummary).1 = true ∧
      Solve idleAcceptAll 2 (freshBasinhopping 1) twoIterations (nanAtProblem [13]) [10]
        defaultSummary = some nanCandidateRun ∧
      accepted idleAcceptAll twoIterations (nanAtProblem [13])
        (initialRun idleAcceptAll (freshBasinhopping 1) (nanAtProblem [13]) [10]
          defaultSummary) = true ∧
      candidateCost idleAcceptAll twoIterations (nanAtProblem [13])
        (initialRun idleAcceptAll (freshBasinhopping 1) (nanAtProblem [13]) [10]
          defaultSummary) = Double.nan ∧
      ¬ nanCandidateRun.self.global_minimum_state.cost ≤
        nanCandidateRun.self.current_state.cost ∧
      ¬ nanCandidateRun.summary.final_cost ≤
        candidateCost idleAcceptAll twoIterations (nanAtProblem [13])
          (initialRun idleAcceptAll (freshBasinhopping 1) (nanAtProblem [13]) [10]
            defaultSummary) := by
  decide

/-- C19 amended. After a successful initialisation (the initial local minimization does not
fail and the evaluation at the locally minimised start point succeeds), at every
termination check `current_state.cost` is not below `global_minimum_state.cost`, whatever
the acceptance test accepts; and whenever `Solve` returns, this holds at return, and neither
the cost of the locally minimised start point nor the cost of any candidate accepted in an
executed loop iteration is below `summary.final_cost`. Whenever the two costs compared are
not NaN, "not below" is the `<=` of the claim. -/
theorem current_not_below_global_best (c : Collaborators) (fuel : Nat) (self : Basinhopping)
    (options : Options) (problem : GradientProblem) (parameters : Vector)
    (global_summary : Summary)
    (hnf : (c.local_minimizer 0 parameters).2.termination_type ≠ TerminationType.FAILURE ∧
      (c.local_minimizer 0 parameters).2.termination_type ≠ TerminationType.USER_FAILURE)
    (heval : (secondEvaluation c problem parameters global_summary).1 = true) :
    (∀ j : Nat,
        ¬ (stateAfter c options problem j
            (initialRun c self problem parameters global_summary)).self.current_state.cost <
          (stateAfter c options problem j
            (initialRun c self problem parameters
              global_summary)).self.global_minimum_state.cost) ∧
      (∀ q : Run, Solve c fuel self options problem parameters global_summary = some q →
        ¬ q.self.current_state.cost < q.self.global_minimum_state.cost ∧
          ¬ (secondEvaluation c problem parameters global_summary).2.1.cost <
            q.summary.final_cost ∧
          (∀ j, j < q.calls.loop_iterations →
            accepted c options problem (stateAfter c options problem j
              (initialRun c self problem parameters global_summary)) = true →
            ¬ candidateCost c options problem (stateAfter c options problem j
                (initialRun c self problem parameters global_summary)) <
              q.summary.final_cost)) ∧
      (∀ a b : Double, a ≠ Double.nan → b ≠ Double.nan → ¬ b < a → a ≤ b) := by
  have hself := initialRun_self_of_success_ieee c self problem parameters global_summary heval
  have hloops := (initialRun_frame_ieee c self problem parameters global_summary).2.1
  have hinv := stateAfter_not_below_ieee c options problem
    (initialRun c self problem parameters global_summary)
    (by rw [hself]; exact Double_lt_irrefl _)
  refine ⟨hinv, ?_, fun a b ha hb h => Double_le_of_not_lt b a hb ha h⟩
  intro q hS
  obtain ⟨K, hq⟩ := Solve_some_returns_after_ieee c fuel self options problem parameters
    global_summary (not_initialMinimizationFailed_ieee c parameters hnf) q hS
  have hK : q.calls.loop_iterations = K := by
    rw [hq.loop_iterations, hloops]
    simp [Calls.zero]
  refine ⟨?_, ?_, ?_⟩
  · rw [hq.self_eq]
    exact hinv K
  · rw [hq.final_cost, hq.self_eq]
    have h := stateAfter_global_descends_ieee c options problem
      (initialRun c self problem parameters global_summary) 0 K
    rw [Nat.zero_add] at h
    have h0 : (stateAfter c options problem 0
        (initialRun c self problem parameters global_summary)).self.global_minimum_state.cost =
        (secondEvaluation c problem parameters global_summary).2.1.cost := by
      show (initialRun c self problem parameters
        global_summary).self.global_minimum_state.cost = _
      rw [hself]
    rw [h0] at h
    exact Double_not_lt_of_descends _ _ h
  · intro j hj hacc
    rw [hK] at hj
    rw [hq.final_cost, hq.self_eq]
    have h := stateAfter_global_descends_ieee c options problem
      (initialRun c self problem parameters global_summary) (j + 1) (K - (j + 1))
    rw [show j + 1 + (K - (j + 1)) = K by omega] at h
    have hcand : ¬ candidateCost c options problem (stateAfter c options problem j
          (initialRun c self problem parameters global_summary)) <
        (stateAfter c options problem (j + 1)
          (initialRun c self problem parameters
            global_summary)).self.global_minimum_state.cost := by
      show ¬ _ < (iteration c options problem (stateAfter c options problem j
        (initialRun c self problem parameters
          global_summary))).1.self.global_minimum_state.cost
      rw [iteration_self_ieee]
      exact (loopBody_not_below_ieee c options problem _).2 hacc
    intro hlt
    rcases h with h | h
    · rw [h] at hlt
      exact hcand hlt
    · exact hcand (Double_lt_trans _ _ _ hlt h)

/-- Witness for C19 amended: in the run with the accepted NaN candidate the current cost NaN
is not below the global-best cost 100, and the start cost 100 is not below the final cost
100. -/
theorem current_not_below_global_best_witness :
    ¬ nanCandidateRun.self.current_state.cost <
        nanCandidateRun.self.global_minimum_state.cost ∧
      ¬ (secondEvaluation idleAcceptAll (nanAtProblem [13]) [10] defaultSummary).2.1.cost <
        nanCandidateRun.summary.final_cost :=
  ⟨((current_not_below_global_best idleAcceptAll 2 (freshBasinhopping 1) twoIterations
      (nanAtProblem [13]) [10] defaultSummary ⟨by decide, by decide⟩ (by decide)).2.1
      nanCandidateRun (by decide)).1,
    ((current_not_below_global_best idleAcceptAll 2 (freshBasinhopping 1) twoIterations
      (nanAtProblem [13]) [10] defaultSummary ⟨by decide, by decide⟩ (by decide)).2.1
      nanCandidateRun (by decide)).2.1⟩

end ieee

end pallas
